import Mathlib

/-! The OIDC callback endpoint of the supervisor (`internal/oidc/callback`).

A shallow embedding of `callback_handler.go`.  The handler is a straight-line
function that talks to collaborators (the state/CSRF validator, the upstream
IdP lister, the OAuth2 provider, the upstream IdP, package `downstreamsession`,
the logger).  Every collaborator is a parameter; every call the handler makes is
appended, with its arguments and its result, to a trace.  A handler run is thus
a pair: the trace of calls, in program order, and the `error` it returns.

Each collaborator method is called at most once per request and in a fixed
order, so giving a collaborator as a function of its arguments loses no run of
the real handler: the theorems quantify over all such functions.

The login endpoint (`internal/oidc/login`), the session builder (package
`downstreamsession`) and the response writer follow, in the same style; their
code is not among the sources and they are modelled from the specification.
The generated lister of UpstreamOIDCProviders is embedded from its source.
-/

namespace Callback

/-! ## Go values -/

/-- Go's `url.Values` (`map[string][]string`), as an association list. -/
abbrev Values := List (String × List String)

/-- The method `url.Values.Get`, also what `http.Request.FormValue` returns on the
parsed form: the first value stored under `key`, or the empty string when the key
is absent or has no value. -/
def Values.Get (v : Values) (key : String) : String :=
  match v.lookup key with
  | some (x :: _) => x
  | _ => ""

/-- The part of `*http.Request` the handler reads.  `Form` is the parsed form
(the URL query parameters of a GET request), the thing `r.FormValue` consults. -/
structure Request where
  Method : String := ""
  Form : Values := []
  Cookies : List (String × String) := []
deriving DecidableEq, Repr

/-- The method `(*http.Request).FormValue`. -/
def Request.FormValue (r : Request) (key : String) : String :=
  r.Form.Get key

namespace http

def MethodGet : String := "GET"
def StatusBadRequest : Nat := 400
def StatusMethodNotAllowed : Nat := 405
def StatusUnprocessableEntity : Nat := 422
def StatusInternalServerError : Nat := 500
def StatusBadGateway : Nat := 502

end http

/-- Go `error` values as the handler sees them.  An error built by package
`httperr` carries an HTTP status, a message and, when it wraps another error,
the text of that cause; any other error is known by the text of its `Error()`. -/
inductive GoError where
  | errorString (text : String)
  | httpErr (code : Nat) (msg : String) (cause : Option String)
deriving DecidableEq, Repr

namespace httperr

/-- Modelled from the spec: package `httperr` is not among the sources.
`httperr.New(code, msg)`: an error of that status and message, no cause (§7). -/
def New (code : Nat) (msg : String) : GoError := .httpErr code msg none

/-- Modelled from the spec: `httperr.Newf(code, format, args...)`; the caller
passes the formatted message. -/
def Newf (code : Nat) (formatted : String) : GoError := .httpErr code formatted none

/-- Modelled from the spec: `httperr.Wrap(code, msg, cause)`; the cause is kept
by its error text. -/
def Wrap (code : Nat) (msg : String) (cause : String) : GoError := .httpErr code msg (some cause)

end httperr

/-- The HTTP status carried by an error, if it is an `httperr` one. -/
def GoError.status : GoError → Option Nat
  | .errorString _ => none
  | .httpErr code _ _ => some code

/-- The message given to `httperr.New` / `Newf` / `Wrap`, or the text of a foreign error. -/
def GoError.message : GoError → String
  | .errorString text => text
  | .httpErr _ msg _ => msg

/-- Modelled from the spec: `oidc.UpstreamStateParamData` is declared outside the
sources; its fields are those of §3 (and of the struct literals in
`post_login_handler_test.go`). -/
structure UpstreamStateParamData where
  AuthParams : String
  UpstreamName : String
  UpstreamType : String
  Nonce : String
  CSRFToken : String
  PKCECode : String
  FormatVersion : String
deriving DecidableEq, Repr

/-- The types of the collaborators' values, which the handler only passes along:
`oidc.Decoder`, `fosite.AuthorizeRequester`, `fosite.AuthorizeResponder`,
`*oidctypes.Token`, the ID token's claims map, `*psession.CustomSessionData`
and `*psession.PinnipedSession`. -/
structure Types where
  Decoder : Type
  Requester : Type
  Responder : Type
  Token : Type
  Claims : Type
  CustomSessionData : Type
  Session : Type

/-- The interface `provider.UpstreamOIDCIdentityProviderI`, as far as the handler
uses it: `GetName()` and `ExchangeAuthcodeAndValidateTokens(ctx, authcode,
pkceCodeVerifier, expectedIDTokenNonce, redirectURI)`; an error is given by its text. -/
structure UpstreamOIDCIdentityProviderI (T : Types) where
  GetName : String
  ExchangeAuthcodeAndValidateTokens : String → String → String → String → Except String T.Token

/-- The interface `oidc.UpstreamOIDCIdentityProvidersLister`: one method, returning
the current list of OIDC providers. -/
structure UpstreamOIDCIdentityProvidersLister (T : Types) where
  GetOIDCIdentityProviders : List (UpstreamOIDCIdentityProviderI T)

/-- The interface `fosite.OAuth2Provider`, as far as the handler uses it.
`WriteAuthorizeResponse` returns nothing and appears only in the trace. -/
structure OAuth2Provider (T : Types) where
  NewAuthorizeRequest : Request → Except String T.Requester
  NewAuthorizeResponse : T.Requester → T.Session → Except String T.Responder

/-- Functions of other packages that the handler calls:
`oidc.ReadStateParamAndValidateCSRFCookie(r, cookieDecoder, stateDecoder)` (returns
the CSRF token and the decoded state), `url.ParseQuery`, the functions of package
`downstreamsession`, and the field path `token.IDToken.Claims`.  Errors other than
the validator's are given by the text of their `Error()`. -/
structure Packages (T : Types) where
  ReadStateParamAndValidateCSRFCookie :
    Request → T.Decoder → T.Decoder → Except GoError (String × UpstreamStateParamData)
  ParseQuery : String → Except String Values
  GrantScopesIfRequested : T.Requester → T.Requester
  IDTokenClaims : T.Token → T.Claims
  GetDownstreamIdentityFromUpstreamIDToken :
    UpstreamOIDCIdentityProviderI T → T.Claims → Except String (String × String × List String)
  MakeDownstreamOIDCCustomSessionData :
    UpstreamOIDCIdentityProviderI T → T.Token → Except String T.CustomSessionData
  MakeDownstreamSession : String → String → List String → T.CustomSessionData → T.Session

/-! ## The trace of a run -/

/-- One call made by the handler, with its arguments and what it returned.
Providers are recorded by name. -/
inductive Event (T : Types) where
  | plog (level msg : String) (err : Option GoError) (keysAndValues : List String)
  | ReadStateParamAndValidateCSRFCookie (r : Request) (cookieDecoder stateDecoder : T.Decoder)
      (result : Except GoError (String × UpstreamStateParamData))
  | GetOIDCIdentityProviders (names : List String)
  | NewAuthorizeRequest (r : Request) (result : Except String T.Requester)
  | GrantScopesIfRequested (requester : T.Requester)
  | ExchangeAuthcodeAndValidateTokens (idp authcode pkce nonce redirectURI : String)
      (result : Except String T.Token)
  | GetDownstreamIdentityFromUpstreamIDToken (idp : String) (claims : T.Claims)
      (result : Except String (String × String × List String))
  | MakeDownstreamOIDCCustomSessionData (idp : String) (token : T.Token)
      (result : Except String T.CustomSessionData)
  | MakeDownstreamSession (subject username : String) (groups : List String)
      (custom : T.CustomSessionData)
  | NewAuthorizeResponse (requester : T.Requester) (session : T.Session)
      (result : Except String T.Responder)
  | WriteAuthorizeResponse (requester : T.Requester) (responder : T.Responder)

/-- Which collaborator an event is a call of. -/
inductive Call where
  | plog
  | ReadStateParamAndValidateCSRFCookie
  | GetOIDCIdentityProviders
  | NewAuthorizeRequest
  | GrantScopesIfRequested
  | ExchangeAuthcodeAndValidateTokens
  | GetDownstreamIdentityFromUpstreamIDToken
  | MakeDownstreamOIDCCustomSessionData
  | MakeDownstreamSession
  | NewAuthorizeResponse
  | WriteAuthorizeResponse
deriving DecidableEq, Repr

def Event.call {T : Types} : Event T → Call
  | .plog .. => .plog
  | .ReadStateParamAndValidateCSRFCookie .. => .ReadStateParamAndValidateCSRFCookie
  | .GetOIDCIdentityProviders .. => .GetOIDCIdentityProviders
  | .NewAuthorizeRequest .. => .NewAuthorizeRequest
  | .GrantScopesIfRequested .. => .GrantScopesIfRequested
  | .ExchangeAuthcodeAndValidateTokens .. => .ExchangeAuthcodeAndValidateTokens
  | .GetDownstreamIdentityFromUpstreamIDToken .. => .GetDownstreamIdentityFromUpstreamIDToken
  | .MakeDownstreamOIDCCustomSessionData .. => .MakeDownstreamOIDCCustomSessionData
  | .MakeDownstreamSession .. => .MakeDownstreamSession
  | .NewAuthorizeResponse .. => .NewAuthorizeResponse
  | .WriteAuthorizeResponse .. => .WriteAuthorizeResponse

/-- A run: the calls made, in order, and the value or error returned. -/
structure Outcome (T : Types) (α : Type) where
  trace : List (Event T)
  result : Except GoError α

/-- The collaborators called during a run, in order. -/
def Outcome.calls {T : Types} {α : Type} (o : Outcome T α) : List Call :=
  o.trace.map Event.call

/-! ## The code of `callback_handler.go` -/

/-- The function `authcode`: `r.FormValue("code")`. -/
def authcode (r : Request) : String :=
  r.FormValue "code"

/-- The function `validateRequest`. -/
def validateRequest {T : Types} (pk : Packages T) (r : Request)
    (stateDecoder cookieDecoder : T.Decoder) : Outcome T UpstreamStateParamData :=
  if r.Method ≠ http.MethodGet then
    ⟨[], .error (httperr.Newf http.StatusMethodNotAllowed (r.Method ++ " (try GET)"))⟩
  else
    match pk.ReadStateParamAndValidateCSRFCookie r cookieDecoder stateDecoder with
    | .error err =>
      ⟨[.ReadStateParamAndValidateCSRFCookie r cookieDecoder stateDecoder (.error err),
        .plog "info" "state or CSRF error" (some err) []],
       .error err⟩
    | .ok (csrf, decodedState) =>
      if authcode r = "" then
        ⟨[.ReadStateParamAndValidateCSRFCookie r cookieDecoder stateDecoder (.ok (csrf, decodedState)),
          .plog "info" "code param not found" none []],
         .error (httperr.New http.StatusBadRequest "code param not found")⟩
      else
        ⟨[.ReadStateParamAndValidateCSRFCookie r cookieDecoder stateDecoder (.ok (csrf, decodedState))],
         .ok decodedState⟩

/-- The loop of `findUpstreamIDPConfig` over the providers: the first one whose
name equals `upstreamName`, `none` (Go's `nil`) when the loop ends without a match. -/
def findUpstreamIDPConfig.loop {T : Types} (upstreamName : String) :
    List (UpstreamOIDCIdentityProviderI T) → Option (UpstreamOIDCIdentityProviderI T)
  | [] => none
  | p :: rest => if p.GetName = upstreamName then some p else findUpstreamIDPConfig.loop upstreamName rest

/-- The function `findUpstreamIDPConfig`. -/
def findUpstreamIDPConfig {T : Types} (upstreamName : String)
    (upstreamIDPs : UpstreamOIDCIdentityProvidersLister T) : Option (UpstreamOIDCIdentityProviderI T) :=
  findUpstreamIDPConfig.loop upstreamName upstreamIDPs.GetOIDCIdentityProviders

/-- The function that `NewHandler` wraps in `httperr.HandlerFunc`: what serving one
request `r` does, for the handler built from `upstreamIDPs`, `oauthHelper`,
`stateDecoder`, `cookieDecoder` and `redirectURI`.  (`httperr.HandlerFunc` turns
the returned error into the response status; `securityheader.WrapWithCustomCSP`
adds response headers; both are outside the sources.) -/
def NewHandler {T : Types} (pk : Packages T)
    (upstreamIDPs : UpstreamOIDCIdentityProvidersLister T)
    (oauthHelper : OAuth2Provider T)
    (stateDecoder cookieDecoder : T.Decoder)
    (redirectURI : String) (r : Request) : Outcome T Unit :=
  let v := validateRequest pk r stateDecoder cookieDecoder
  match v.result with
  | .error err => ⟨v.trace, .error err⟩
  | .ok state =>
  let t1 := v.trace ++
    [.GetOIDCIdentityProviders (upstreamIDPs.GetOIDCIdentityProviders.map (·.GetName))]
  match findUpstreamIDPConfig state.UpstreamName upstreamIDPs with
  | none =>
    ⟨t1 ++ [.plog "warning" "upstream provider not found" none []],
     .error (httperr.New http.StatusUnprocessableEntity "upstream provider not found")⟩
  | some upstreamIDPConfig =>
  match pk.ParseQuery state.AuthParams with
  | .error err =>
    ⟨t1 ++ [.plog "error" "error reading state downstream auth params" (some (.errorString err)) []],
     .error (httperr.New http.StatusBadRequest "error reading state downstream auth params")⟩
  | .ok downstreamAuthParams =>
  -- Recreate enough of the original authorize request so we can pass it to NewAuthorizeRequest().
  let reconstitutedAuthRequest : Request := { Form := downstreamAuthParams }
  match oauthHelper.NewAuthorizeRequest reconstitutedAuthRequest with
  | .error err =>
    ⟨t1 ++ [.NewAuthorizeRequest reconstitutedAuthRequest (.error err),
            .plog "error" "error using state downstream auth params" (some (.errorString err)) []],
     .error (httperr.New http.StatusBadRequest "error using state downstream auth params")⟩
  | .ok requested =>
  -- Automatically grant the openid, offline_access, and pinniped:request-audience scopes,
  -- but only if they were requested.
  let authorizeRequester := pk.GrantScopesIfRequested requested
  let t2 := t1 ++ [.NewAuthorizeRequest reconstitutedAuthRequest (.ok requested),
                   .GrantScopesIfRequested requested]
  match upstreamIDPConfig.ExchangeAuthcodeAndValidateTokens
      (authcode r) state.PKCECode state.Nonce redirectURI with
  | .error err =>
    ⟨t2 ++ [.ExchangeAuthcodeAndValidateTokens upstreamIDPConfig.GetName
              (authcode r) state.PKCECode state.Nonce redirectURI (.error err),
            .plog "warning" "error exchanging and validating upstream tokens"
              (some (.errorString err)) ["upstreamName", upstreamIDPConfig.GetName]],
     .error (httperr.New http.StatusBadGateway "error exchanging and validating upstream tokens")⟩
  | .ok token =>
  let t3 := t2 ++ [.ExchangeAuthcodeAndValidateTokens upstreamIDPConfig.GetName
                     (authcode r) state.PKCECode state.Nonce redirectURI (.ok token)]
  match pk.GetDownstreamIdentityFromUpstreamIDToken upstreamIDPConfig (pk.IDTokenClaims token) with
  | .error err =>
    ⟨t3 ++ [.GetDownstreamIdentityFromUpstreamIDToken upstreamIDPConfig.GetName
              (pk.IDTokenClaims token) (.error err)],
     .error (httperr.Wrap http.StatusUnprocessableEntity err err)⟩
  | .ok (subject, username, groups) =>
  let t4 := t3 ++ [.GetDownstreamIdentityFromUpstreamIDToken upstreamIDPConfig.GetName
                     (pk.IDTokenClaims token) (.ok (subject, username, groups))]
  match pk.MakeDownstreamOIDCCustomSessionData upstreamIDPConfig token with
  | .error err =>
    ⟨t4 ++ [.MakeDownstreamOIDCCustomSessionData upstreamIDPConfig.GetName token (.error err)],
     .error (httperr.Wrap http.StatusUnprocessableEntity err err)⟩
  | .ok customSessionData =>
  let openIDSession := pk.MakeDownstreamSession subject username groups customSessionData
  let t5 := t4 ++ [.MakeDownstreamOIDCCustomSessionData upstreamIDPConfig.GetName token
                     (.ok customSessionData),
                   .MakeDownstreamSession subject username groups customSessionData]
  match oauthHelper.NewAuthorizeResponse authorizeRequester openIDSession with
  | .error err =>
    ⟨t5 ++ [.NewAuthorizeResponse authorizeRequester openIDSession (.error err),
            .plog "warning" "error while generating and saving authcode"
              (some (.errorString err)) ["upstreamName", upstreamIDPConfig.GetName]],
     .error (httperr.Wrap http.StatusInternalServerError
       "error while generating and saving authcode" err)⟩
  | .ok authorizeResponder =>
    ⟨t5 ++ [.NewAuthorizeResponse authorizeRequester openIDSession (.ok authorizeResponder),
            .WriteAuthorizeResponse authorizeRequester authorizeResponder],
     .ok ()⟩

/-- Modelled from the spec: the upstream registry of §4.2, one list per IdP type; the
handler is handed the OIDC list only.  Of the LDAP and Active Directory providers
only the names are kept. -/
structure UpstreamRegistry (T : Types) where
  GetOIDCIdentityProviders : List (UpstreamOIDCIdentityProviderI T)
  GetLDAPIdentityProviders : List String
  GetActiveDirectoryIdentityProviders : List String

/-- Modelled from the spec: the names in "the list dictated by `UpstreamType`" (§4.2),
for the three types of §3. -/
def UpstreamRegistry.namesFor {T : Types} (reg : UpstreamRegistry T) (upstreamType : String) :
    List String :=
  if upstreamType = "oidc" then reg.GetOIDCIdentityProviders.map (·.GetName)
  else if upstreamType = "ldap" then reg.GetLDAPIdentityProviders
  else if upstreamType = "activedirectory" then reg.GetActiveDirectoryIdentityProviders
  else []

/-- The lister that `NewHandler` is given: the OIDC part of the registry. -/
def UpstreamRegistry.oidcLister {T : Types} (reg : UpstreamRegistry T) :
    UpstreamOIDCIdentityProvidersLister T :=
  ⟨reg.GetOIDCIdentityProviders⟩

/-! ## Go's `net/url.ParseQuery`

The handler calls `url.ParseQuery` of the Go standard library (Go 1.17 and
later).  The theorems take it as a parameter (`Packages.ParseQuery`); this model
of it is what the concrete runs below plug in.  Strings are lists of characters;
a percent escape decodes to the character with that code. -/

namespace url

/-- The function `ishex`. -/
def ishex (c : Char) : Bool :=
  ('0' ≤ c && c ≤ '9') || ('a' ≤ c && c ≤ 'f') || ('A' ≤ c && c ≤ 'F')

/-- The function `unhex`. -/
def unhex (c : Char) : Nat :=
  if '0' ≤ c && c ≤ '9' then c.toNat - '0'.toNat
  else if 'a' ≤ c && c ≤ 'f' then c.toNat - 'a'.toNat + 10
  else if 'A' ≤ c && c ≤ 'F' then c.toNat - 'A'.toNat + 10
  else 0

/-- The function `unescape` in mode `encodeQueryComponent` (`QueryUnescape`): a `%`
must be followed by two hex digits, else the result is `EscapeError` of the (at most
three) bytes starting at that `%`; `+` decodes to a space. -/
def unescape : List Char → Except (List Char) (List Char)
  | [] => .ok []
  | '%' :: a :: b :: rest =>
    if ishex a && ishex b then
      match unescape rest with
      | .ok t => .ok (Char.ofNat (unhex a * 16 + unhex b) :: t)
      | .error e => .error e
    else .error ['%', a, b]
  | '%' :: rest => .error ('%' :: rest)
  | '+' :: rest =>
    match unescape rest with
    | .ok t => .ok (' ' :: t)
    | .error e => .error e
  | c :: rest =>
    match unescape rest with
    | .ok t => .ok (c :: t)
    | .error e => .error e

/-- The function `strings.Cut(s, sep)` for a one-character separator: the text before
the first `sep`, and the text after it (empty when there is none). -/
def Cut (sep : Char) : List Char → List Char × List Char
  | [] => ([], [])
  | c :: rest =>
    if c = sep then ([], rest)
    else let (before, after) := Cut sep rest; (c :: before, after)

/-- The successive `key`s that the loop of `parseQuery` cuts off at `&` until the
query is empty. -/
def pieces (cur : List Char) : List Char → List (List Char)
  | [] => if cur = [] then [] else [cur.reverse]
  | c :: rest => if c = '&' then cur.reverse :: pieces [] rest else pieces (c :: cur) rest

/-- The statement `m[key] = append(m[key], value)`. -/
def add (m : Values) (key value : String) : Values :=
  match m.lookup key with
  | some vs => m.map (fun kv => if kv.1 = key then (kv.1, vs ++ [value]) else kv)
  | none => m ++ [(key, [value])]

/-- The text of `EscapeError(s).Error()`, for an `s` that needs no quoting escapes. -/
def EscapeError (s : List Char) : String :=
  "invalid URL escape \"" ++ String.mk s ++ "\""

/-- One turn of the loop of `parseQuery`, for the piece `key` cut off the query. -/
def parseQuery.step (acc : Values × Option String) (key : List Char) : Values × Option String :=
  if ';' ∈ key then (acc.1, some "invalid semicolon separator in query")
  else if key = [] then acc
  else
    let (k, value) := Cut '=' key
    match unescape k with
    | .error e1 => (acc.1, if acc.2 = none then some (EscapeError e1) else acc.2)
    | .ok k1 =>
      match unescape value with
      | .error e1 => (acc.1, if acc.2 = none then some (EscapeError e1) else acc.2)
      | .ok v1 => (add acc.1 (String.mk k1) (String.mk v1), acc.2)

/-- The function `ParseQuery`: the values parsed, and the first error met, if any
(`Except` keeps only the error, as the handler drops the values then). -/
def ParseQuery (query : String) : Except String Values :=
  match (pieces [] query.data).foldl parseQuery.step ([], none) with
  | (m, none) => .ok m
  | (_, some err) => .error err

end url

/-! ## Concrete runs

Stand-ins for the collaborators, in the manner of the handler's unit tests, on
which the handler can be evaluated. -/

namespace Example

/-- Decoders carry nothing; requesters are the request they were parsed from;
tokens, claims, custom session data and responders are strings; a session is
(subject, username, groups, custom session data). -/
abbrev T0 : Types where
  Decoder := Unit
  Requester := Request
  Responder := String
  Token := String
  Claims := String
  CustomSessionData := String
  Session := String × String × List String × String

def happyDownstreamRequestParams : String :=
  "response_type=code&scope=openid&client_id=pinniped-cli&state=8b-state" ++
  "&redirect_uri=http%3A%2F%2F127.0.0.1%2Fcallback"

def happyState : UpstreamStateParamData where
  AuthParams := happyDownstreamRequestParams
  UpstreamName := "some-oidc-idp"
  UpstreamType := "oidc"
  Nonce := "test-nonce"
  CSRFToken := "test-csrf"
  PKCECode := "test-pkce"
  FormatVersion := "2"

/-- The happy state, declared of type `ldap`. -/
def ldapState : UpstreamStateParamData := { happyState with UpstreamType := "ldap" }

/-- The happy state, naming an IdP that no list has. -/
def otherIDPState : UpstreamStateParamData := { happyState with UpstreamName := "other-idp" }

/-- The happy state, with auth params that are not a URL-encoded query. -/
def unparsableParamsState : UpstreamStateParamData := { happyState with AuthParams := "%" }

/-- The happy state, with auth params that lack the client id. -/
def noClientState : UpstreamStateParamData := { happyState with AuthParams := "scope=openid" }

/-- The states that the stand-in validator can decode, by their encoded form. -/
def decodeState (encoded : String) : Option UpstreamStateParamData :=
  if encoded = "happy-state" then some happyState
  else if encoded = "ldap-state" then some ldapState
  else if encoded = "other-idp-state" then some otherIDPState
  else if encoded = "unparsable-params-state" then some unparsableParamsState
  else if encoded = "no-client-state" then some noClientState
  else none

/-- A stand-in for `oidc.ReadStateParamAndValidateCSRFCookie`, after §4.1: the state
parameter must decode, have format version "2", and carry the CSRF token that the
CSRF cookie presents. -/
def readState (r : Request) (_cookieDecoder _stateDecoder : Unit) :
    Except GoError (String × UpstreamStateParamData) :=
  match decodeState (r.FormValue "state") with
  | none => .error (httperr.New http.StatusBadRequest "error reading state")
  | some st =>
    if st.FormatVersion ≠ "2" then
      .error (httperr.New http.StatusUnprocessableEntity "state format version is invalid")
    else
      match r.Cookies.lookup "__Host-pinniped-csrf" with
      | none => .error (httperr.New 403 "CSRF cookie is missing")
      | some c =>
        if c = st.CSRFToken then .ok (c, st)
        else .error (httperr.New 403 "CSRF value does not match")

def pk0 : Packages T0 where
  ReadStateParamAndValidateCSRFCookie := readState
  ParseQuery := url.ParseQuery
  GrantScopesIfRequested := fun req => req
  IDTokenClaims := fun token => token
  GetDownstreamIdentityFromUpstreamIDToken := fun idp claims =>
    .ok ("https://" ++ idp.GetName ++ "?sub=" ++ claims, "joe", ["group1"])
  MakeDownstreamOIDCCustomSessionData := fun idp _ => .ok idp.GetName
  MakeDownstreamSession := fun subject username groups custom => (subject, username, groups, custom)

/-- The stand-in packages, with an identity projection that fails. -/
def pkNoUsername : Packages T0 :=
  { pk0 with
    GetDownstreamIdentityFromUpstreamIDToken := fun _ _ =>
      Except.error "required claim in upstream ID token missing" }

def happyIDP : UpstreamOIDCIdentityProviderI T0 where
  GetName := "some-oidc-idp"
  ExchangeAuthcodeAndValidateTokens := fun authcode _ _ _ => .ok ("token-of-" ++ authcode)

def erroringIDP : UpstreamOIDCIdentityProviderI T0 where
  GetName := "some-oidc-idp"
  ExchangeAuthcodeAndValidateTokens := fun _ _ _ _ => .error "some upstream error"

def idps0 : UpstreamOIDCIdentityProvidersLister T0 := ⟨[happyIDP]⟩

/-- A registry with one OIDC provider and no LDAP or Active Directory provider. -/
def registry0 : UpstreamRegistry T0 where
  GetOIDCIdentityProviders := [happyIDP]
  GetLDAPIdentityProviders := []
  GetActiveDirectoryIdentityProviders := []

def redirectURI : String := "https://my-downstream-issuer.com/path/callback"

/-- A stand-in OAuth2 provider: it accepts an authorize request of the client
`pinniped-cli` and stores any response. -/
def oauth0 : OAuth2Provider T0 where
  NewAuthorizeRequest := fun req =>
    if req.FormValue "client_id" = "pinniped-cli" then .ok req else .error "invalid_client"
  NewAuthorizeResponse := fun _ session => .ok ("code-for-" ++ session.2.1)

/-- The stand-in OAuth2 provider, with a storage that fails. -/
def oauthStorageDown : OAuth2Provider T0 :=
  { oauth0 with NewAuthorizeResponse := fun _ _ => Except.error "some storage error" }

/-- A GET callback request carrying `state`, `code` and the CSRF cookie. -/
def callback (state code : String) : Request where
  Method := "GET"
  Form := [("code", [code]), ("state", [state])]
  Cookies := [("__Host-pinniped-csrf", "test-csrf")]

end Example

end Callback

/-! ## The collaborators' data, from the specification

The packages `fosite`, `psession`, `authenticators` and `downstreamsession` are
not among the sources.  What the login endpoint and the session builder need
of them is modelled here from the specification (§3, §4.3, §6) and from the
values that `post_login_handler_test.go` builds and expects. -/

namespace fosite

/-- Modelled from the spec: the `fosite.AuthorizeRequester` that the OAuth2
collaborator's authorize parser returns (§6), as far as the core and the response
writer read it: the requested and the granted scopes (§4.3) and the redirect URI,
client state and response mode of the downstream request (§4.7). -/
structure AuthorizeRequester where
  RequestedScopes : List String := []
  GrantedScopes : List String := []
  RedirectURI : String := ""
  State : String := ""
  ResponseMode : String := ""
deriving DecidableEq, Repr

/-- Modelled from the spec: marking a scope as granted (§4.3).  A scope that is
already granted stays granted once. -/
def AuthorizeRequester.GrantScope (a : AuthorizeRequester) (scope : String) : AuthorizeRequester :=
  if scope ∈ a.GrantedScopes then a else { a with GrantedScopes := a.GrantedScopes ++ [scope] }

/-- Modelled from the spec: the `fosite.AuthorizeResponder` of §6; it carries the
authcode of the response parameters (§4.7). -/
structure AuthorizeResponder where
  Code : String
deriving DecidableEq, Repr

end fosite

namespace psession

/-- Modelled from the spec: `ProviderType ∈ {oidc, ldap, activedirectory}` (§3). -/
inductive ProviderType where
  | oidc
  | ldap
  | activedirectory
deriving DecidableEq, Repr

/-- Modelled from the spec: the OIDC variant of §3: upstream subject, upstream issuer,
username claim value at bind time. -/
structure OIDCSessionData where
  UpstreamSubject : String
  UpstreamIssuer : String
  UpstreamUsername : String
deriving DecidableEq, Repr

/-- Modelled from the spec: the LDAP variant of §3. -/
structure LDAPSessionData where
  UserDN : String
  ExtraRefreshAttributes : List (String × String)
deriving DecidableEq, Repr

/-- Modelled from the spec: the Active Directory variant of §3. -/
structure ActiveDirectorySessionData where
  UserDN : String
  ExtraRefreshAttributes : List (String × String)
deriving DecidableEq, Repr

/-- Modelled from the spec: `CustomSessionData` of §3, with the fields of the values
expected in `post_login_handler_test.go`; `none` is Go's `nil`. -/
structure CustomSessionData where
  ProviderUID : String
  ProviderName : String
  ProviderType : ProviderType
  OIDC : Option OIDCSessionData
  LDAP : Option LDAPSessionData
  ActiveDirectory : Option ActiveDirectorySessionData
deriving DecidableEq, Repr

/-- The variants of a `CustomSessionData` that are not null, by the type they belong to. -/
def CustomSessionData.populated (c : CustomSessionData) : List psession.ProviderType :=
  (if c.OIDC.isSome then [psession.ProviderType.oidc] else [])
    ++ (if c.LDAP.isSome then [psession.ProviderType.ldap] else [])
    ++ (if c.ActiveDirectory.isSome then [psession.ProviderType.activedirectory] else [])

/-- Modelled from the spec: the downstream session handed to the OAuth2 collaborator
(§3), with the four values that `MakeDownstreamSession` is given in
`callback_handler.go`; the granted scopes travel on the requester. -/
structure PinnipedSession where
  Subject : String
  Username : String
  Groups : List String
  Custom : CustomSessionData
deriving DecidableEq, Repr

end psession

namespace authenticators

/-- Modelled from the spec: `User{Name, UID, Groups}` of an `Authenticate` response (§3). -/
structure UserInfo where
  Name : String
  UID : String
  Groups : List String
deriving DecidableEq, Repr

/-- Modelled from the spec: `Response{User, DN, ExtraRefreshAttributes}` (§3). -/
structure Response where
  User : UserInfo
  DN : String
  ExtraRefreshAttributes : List (String × String)
deriving DecidableEq, Repr

end authenticators

namespace provider

/-- Modelled from the spec: `UpstreamLDAPIdentityProvider` of §3: name, resource UID,
connection URL, and the capability `Authenticate(ctx, username, password) →
(Response, authenticated, err)`; an error is given by its text, `none` is no error. -/
structure UpstreamLDAPIdentityProviderI where
  GetName : String
  GetResourceUID : String
  GetURL : String
  AuthenticateUser : String → String → authenticators.Response × Bool × Option String

end provider

namespace downstreamsession

open fosite psession

/-- Modelled from the spec: granting one scope if and only if it was requested (§4.3). -/
def GrantScopeIfRequested (authorizeRequester : AuthorizeRequester) (scopeName : String) :
    AuthorizeRequester :=
  if scopeName ∈ authorizeRequester.RequestedScopes then authorizeRequester.GrantScope scopeName
  else authorizeRequester

/-- Modelled from the spec: `downstreamsession.GrantScopesIfRequested`, the auto-grant
policy of §4.3: `openid`, `offline_access` and `pinniped:request-audience` are marked
as granted if and only if they were requested. -/
def GrantScopesIfRequested (authorizeRequester : AuthorizeRequester) : AuthorizeRequester :=
  GrantScopeIfRequested
    (GrantScopeIfRequested (GrantScopeIfRequested authorizeRequester "openid") "offline_access")
    "pinniped:request-audience"

/-- Modelled from the spec: the LDAP/AD subject of §4.3,
`upstream_url + "&sub=" + upstream_uid`. -/
def DownstreamSubjectFromUpstreamLDAP (ldapUpstream : provider.UpstreamLDAPIdentityProviderI)
    (authenticateResponse : authenticators.Response) : String :=
  ldapUpstream.GetURL ++ "&sub=" ++ authenticateResponse.User.UID

/-- Modelled from the spec: the custom session data of an LDAP or Active Directory
login (§3, §4.3): the variant keyed by the provider type holds the user DN and the
extra refresh attributes of the `Authenticate` response, the siblings are null.  The
spec has no LDAP/AD session data of type `oidc`; none is populated for it. -/
def MakeDownstreamLDAPOrADCustomSessionData (ldapUpstream : provider.UpstreamLDAPIdentityProviderI)
    (idpType : ProviderType) (authenticateResponse : authenticators.Response) : CustomSessionData :=
  { ProviderUID := ldapUpstream.GetResourceUID
    ProviderName := ldapUpstream.GetName
    ProviderType := idpType
    OIDC := none
    LDAP :=
      match idpType with
      | .ldap => some ⟨authenticateResponse.DN, authenticateResponse.ExtraRefreshAttributes⟩
      | _ => none
    ActiveDirectory :=
      match idpType with
      | .activedirectory => some ⟨authenticateResponse.DN, authenticateResponse.ExtraRefreshAttributes⟩
      | _ => none }

/-- Modelled from the spec: the custom session data of an OIDC login (§3, §4.3), for
the provider of the given resource UID and name and the values of the OIDC variant
(upstream subject, issuer and username) read off the upstream token.  The spec does
not say when reading them fails; the model starts from the values read. -/
def MakeDownstreamOIDCCustomSessionData (providerUID providerName : String)
    (oidc : OIDCSessionData) : CustomSessionData :=
  { ProviderUID := providerUID
    ProviderName := providerName
    ProviderType := .oidc
    OIDC := some oidc
    LDAP := none
    ActiveDirectory := none }

/-- Modelled from the spec: `downstreamsession.MakeDownstreamSession(subject, username,
groups, custom)`, the downstream session of §3. -/
def MakeDownstreamSession (subject username : String) (groups : List String)
    (custom : CustomSessionData) : PinnipedSession :=
  { Subject := subject, Username := username, Groups := groups, Custom := custom }

end downstreamsession

/-! ## The login endpoint (`internal/oidc/login`), from the specification

`post_login_handler.go` is not among the sources; only its test is.  The handler
is modelled from §4.6 of the specification, with the signature that the test
calls: `NewPostHandler(issuer, idps, oauthHelper)(w, r, encodedState,
decodedState)`.  Step 1 of §4.6 (decoding the state) is done by its caller.
As for the callback handler, a run is the trace of the collaborator calls and
the result: the error returned, or the response written. -/

namespace Login

open Callback fosite psession

/-- The part of the POST `*http.Request` that matters to the handler: the URL query
and the form body, kept apart. -/
structure Request where
  Method : String := "POST"
  URLQuery : Values := []
  PostForm : Values := []
deriving DecidableEq, Repr

/-- The method `(*http.Request).PostFormValue`: the first value of `key` in the form
body, the empty string when there is none; the URL query is not consulted. -/
def Request.PostFormValue (r : Request) (key : String) : String :=
  r.PostForm.Get key

/-- What the handler wrote to the `http.ResponseWriter`. -/
structure HTTPResponse where
  Code : Nat
  Header : Values
  Body : String
deriving DecidableEq, Repr

/-- Modelled from the spec: the registry of §4.2 as the login endpoint reads it: the
LDAP list and the Active Directory list. -/
structure UpstreamIdentityProvidersLister where
  GetLDAPIdentityProviders : List provider.UpstreamLDAPIdentityProviderI
  GetActiveDirectoryIdentityProviders : List provider.UpstreamLDAPIdentityProviderI

/-- Modelled from the spec: scanning a list for an IdP whose name equals the requested
name (§4.2). -/
def findByName (name : String) :
    List provider.UpstreamLDAPIdentityProviderI → Option provider.UpstreamLDAPIdentityProviderI
  | [] => none
  | p :: rest => if p.GetName = name then some p else findByName name rest

/-- Modelled from the spec: the lookup by (name, type) of §4.2 and §4.6 step 2: the
list is the one dictated by the state's `UpstreamType`, `ldap` or `activedirectory`;
`none` is `ProviderNotFound`. -/
def FindUpstreamIDPByNameAndType (upstreamIDPs : UpstreamIdentityProvidersLister)
    (upstreamName upstreamType : String) :
    Option (provider.UpstreamLDAPIdentityProviderI × ProviderType) :=
  if upstreamType = "ldap" then
    (findByName upstreamName upstreamIDPs.GetLDAPIdentityProviders).map (·, ProviderType.ldap)
  else if upstreamType = "activedirectory" then
    (findByName upstreamName upstreamIDPs.GetActiveDirectoryIdentityProviders).map
      (·, ProviderType.activedirectory)
  else none

/-- Modelled from the spec: the OAuth2 collaborator of §6.  The authorize parser is
given the state's `AuthParams` and writes nothing to the storage (§8 scenario 4);
`NewAuthorizeResponse` persists the authcode and the session (§4.5 step 8) and may
have stored records before it detects an error (§4.6 step 3): it returns the records
it stored along with its result.  The two writers produce the response. -/
structure OAuth2Provider where
  NewAuthorizeRequest : String → Except String AuthorizeRequester
  NewAuthorizeResponse :
    AuthorizeRequester → PinnipedSession → List String × Except String AuthorizeResponder
  WriteAuthorizeResponse : AuthorizeRequester → AuthorizeResponder → HTTPResponse
  WriteAuthorizeError : AuthorizeRequester → String → HTTPResponse

/-- One collaborator call of a run of the login handler, with arguments and result. -/
inductive Event where
  | NewAuthorizeRequest (authParams : String) (result : Except String AuthorizeRequester)
  | GrantScopesIfRequested (requester : AuthorizeRequester)
  | AuthenticateUser (idp username password : String)
      (result : authenticators.Response × Bool × Option String)
  | RedirectToLoginPage (err encodedState : String)
  | NewAuthorizeResponse (requester : AuthorizeRequester) (session : PinnipedSession)
      (stored : List String) (result : Except String AuthorizeResponder)
  | WriteAuthorizeResponse (requester : AuthorizeRequester) (responder : AuthorizeResponder)
  | WriteAuthorizeError (requester : AuthorizeRequester) (err : String)

/-- Which collaborator an event is a call of. -/
inductive Call where
  | NewAuthorizeRequest
  | GrantScopesIfRequested
  | AuthenticateUser
  | RedirectToLoginPage
  | NewAuthorizeResponse
  | WriteAuthorizeResponse
  | WriteAuthorizeError
deriving DecidableEq, Repr

def Event.call : Event → Call
  | .NewAuthorizeRequest .. => .NewAuthorizeRequest
  | .GrantScopesIfRequested .. => .GrantScopesIfRequested
  | .AuthenticateUser .. => .AuthenticateUser
  | .RedirectToLoginPage .. => .RedirectToLoginPage
  | .NewAuthorizeResponse .. => .NewAuthorizeResponse
  | .WriteAuthorizeResponse .. => .WriteAuthorizeResponse
  | .WriteAuthorizeError .. => .WriteAuthorizeError

/-- The records that a call wrote to the OAuth2 collaborator's storage. -/
def Event.stored : Event → List String
  | .NewAuthorizeResponse _ _ stored _ => stored
  | _ => []

/-- A run of the login handler: the calls made, in order, and either the error
returned or the response written. -/
structure Outcome where
  trace : List Event
  result : Except GoError HTTPResponse

/-- The collaborators called during a run, in order. -/
def Outcome.calls (o : Outcome) : List Call :=
  o.trace.map Event.call

/-- The writes to the OAuth2 collaborator's storage during a run, in order. -/
def Outcome.storageWrites (o : Outcome) : List String :=
  (o.trace.map Event.stored).flatten

def ShowBadUserPassErr : String := "login_error"
def ShowInternalError : String := "internal_error"
def StatusSeeOther : Nat := 303

/-- Modelled from the spec: the redirect back to the login page of §4.6 step 7:
303 to `<issuer><login path>?err=<err>&state=<original encoded state>`, no body.
The login path is the constant `oidc.PinnipedLoginPath`, declared outside the
sources.  The content type is the one the test expects of every response. -/
def RedirectToLoginPage (PinnipedLoginPath downstreamIssuer encodedState err : String) :
    HTTPResponse :=
  { Code := StatusSeeOther
    Header := [("Content-Type", ["text/html; charset=utf-8"]),
               ("Location", [downstreamIssuer ++ PinnipedLoginPath ++ "?err=" ++ err
                               ++ "&state=" ++ encodedState])]
    Body := "" }

/-- Modelled from the spec: the handler that `NewPostHandler(issuerURL, upstreamIDPs,
oauthHelper)` returns, serving the request `r` with the state parameter `encodedState`
that decoded to `decodedState` (§4.6 steps 2 to 8).  An outright rejection by the
authorize parser is the fatal error of step 3.  The downstream errors that the
collaborator surfaces as a redirect are detected by it after the bind and after it
has stored records (§4.6 step 3 note, §8 scenario 5), that is when it is asked for
the authorize response in step 8; the collaborator then writes the error redirect and
the handler returns no error (§7). -/
def NewPostHandler (PinnipedLoginPath : String) (issuerURL : String)
    (upstreamIDPs : UpstreamIdentityProvidersLister) (oauthHelper : OAuth2Provider)
    (r : Request) (encodedState : String) (decodedState : UpstreamStateParamData) : Outcome :=
  -- Step 2: look up the LDAP or AD IdP by (name, type).
  match FindUpstreamIDPByNameAndType upstreamIDPs decodedState.UpstreamName
      decodedState.UpstreamType with
  | none =>
    ⟨[], .error (httperr.New http.StatusUnprocessableEntity
      "error finding upstream provider: provider not found")⟩
  | some (ldapUpstream, idpType) =>
  -- Step 3: re-parse the state's AuthParams via the OAuth2 collaborator.
  match oauthHelper.NewAuthorizeRequest decodedState.AuthParams with
  | .error err =>
    ⟨[.NewAuthorizeRequest decodedState.AuthParams (.error err)],
     .error (httperr.New http.StatusBadRequest "error using state downstream auth params")⟩
  | .ok requested =>
  -- Step 4: apply the auto-grant scope policy.
  let authorizeRequester := downstreamsession.GrantScopesIfRequested requested
  let t1 : List Event := [.NewAuthorizeRequest decodedState.AuthParams (.ok requested),
                          .GrantScopesIfRequested requested]
  -- Step 5: read the form fields; a blank one is a bad username/password combination.
  let username := r.PostFormValue "username"
  let password := r.PostFormValue "password"
  if username = "" ∨ password = "" then
    ⟨t1 ++ [.RedirectToLoginPage ShowBadUserPassErr encodedState],
     .ok (RedirectToLoginPage PinnipedLoginPath issuerURL encodedState ShowBadUserPassErr)⟩
  else
  -- Step 6: authenticate with the upstream IdP.
  let authenticated := ldapUpstream.AuthenticateUser username password
  let t2 := t1 ++ [.AuthenticateUser ldapUpstream.GetName username password authenticated]
  match authenticated.2.2 with
  | some _ =>
    ⟨t2 ++ [.RedirectToLoginPage ShowInternalError encodedState],
     .ok (RedirectToLoginPage PinnipedLoginPath issuerURL encodedState ShowInternalError)⟩
  | none =>
  if authenticated.2.1 = false then
    ⟨t2 ++ [.RedirectToLoginPage ShowBadUserPassErr encodedState],
     .ok (RedirectToLoginPage PinnipedLoginPath issuerURL encodedState ShowBadUserPassErr)⟩
  else
  -- Step 8: project the identity, build the session, ask for the authorize response.
  let authenticateResponse := authenticated.1
  let subject := downstreamsession.DownstreamSubjectFromUpstreamLDAP ldapUpstream authenticateResponse
  let customSessionData := downstreamsession.MakeDownstreamLDAPOrADCustomSessionData
    ldapUpstream idpType authenticateResponse
  let openIDSession := downstreamsession.MakeDownstreamSession subject
    authenticateResponse.User.Name authenticateResponse.User.Groups customSessionData
  let stored := oauthHelper.NewAuthorizeResponse authorizeRequester openIDSession
  match stored.2 with
  | .error err =>
    ⟨t2 ++ [.NewAuthorizeResponse authorizeRequester openIDSession stored.1 (.error err),
            .WriteAuthorizeError authorizeRequester err],
     .ok (oauthHelper.WriteAuthorizeError authorizeRequester err)⟩
  | .ok authorizeResponder =>
    ⟨t2 ++ [.NewAuthorizeResponse authorizeRequester openIDSession stored.1 (.ok authorizeResponder),
            .WriteAuthorizeResponse authorizeRequester authorizeResponder],
     .ok (oauthHelper.WriteAuthorizeResponse authorizeRequester authorizeResponder)⟩

end Login

/-! ## Concrete runs of the login endpoint

The values of `post_login_handler_test.go`, and stand-ins for the OAuth2
collaborator. -/

namespace Login.Example

open Callback fosite psession

def downstreamIssuer : String := "https://my-downstream-issuer.com/path"
def PinnipedLoginPath : String := "/login"
def happyEncodedUpstreamState : String := "fake-encoded-state-param-value"
def upstreamLDAPURL : String :=
  "ldaps://some-ldap-host:123?base=ou%3Dusers%2Cdc%3Dpinniped%2Cdc%3Ddev"

/-- The value `happyDownstreamRequestParams` of the test: the encoded query. -/
def happyDownstreamRequestParams : String :=
  "client_id=pinniped-cli&code_challenge=some-challenge&code_challenge_method=S256" ++
  "&nonce=some-nonce-value&redirect_uri=http%3A%2F%2F127.0.0.1%2Fcallback" ++
  "&response_type=code&scope=openid&state=8b-state"

def happyLDAPDecodedState : UpstreamStateParamData where
  AuthParams := happyDownstreamRequestParams
  UpstreamName := "some-ldap-idp"
  UpstreamType := "ldap"
  Nonce := "test-nonce"
  CSRFToken := "test-csrf"
  PKCECode := "test-pkce"
  FormatVersion := "2"

def happyActiveDirectoryDecodedState : UpstreamStateParamData :=
  { happyLDAPDecodedState with
    UpstreamName := "some-active-directory-idp", UpstreamType := "activedirectory" }

/-- The happy LDAP state with the client id taken out of its auth params. -/
def missingClientDecodedState : UpstreamStateParamData :=
  { happyLDAPDecodedState with
    AuthParams := "redirect_uri=http%3A%2F%2F127.0.0.1%2Fcallback" ++
      "&response_type=code&scope=openid&state=8b-state" }

def happyAuthenticateResponse : authenticators.Response where
  User := { Name := "some-mapped-ldap-username", UID := "some-ldap-uid",
            Groups := ["group1", "group2", "group3"] }
  DN := "cn=foo,dn=bar"
  ExtraRefreshAttributes := [("some-refresh-attribute", "some-refresh-attribute-value")]

/-- The value `expectedHappyLDAPUpstreamCustomSession` of the test. -/
def expectedHappyLDAPUpstreamCustomSession : CustomSessionData where
  ProviderUID := "ldap-resource-uid"
  ProviderName := "some-ldap-idp"
  ProviderType := .ldap
  OIDC := none
  LDAP := some { UserDN := "cn=foo,dn=bar"
                 ExtraRefreshAttributes :=
                   [("some-refresh-attribute", "some-refresh-attribute-value")] }
  ActiveDirectory := none

/-- Go's `nil` response, where the test's authenticators return none. -/
def noResponse : authenticators.Response where
  User := { Name := "", UID := "", Groups := [] }
  DN := ""
  ExtraRefreshAttributes := []

/-- The function `ldapAuthenticateFunc` of the test. -/
def ldapAuthenticateFunc (username password : String) :
    authenticators.Response × Bool × Option String :=
  if username = "" ∨ password = "" then
    (noResponse, false,
      some "should not have passed empty username or password to the authenticator")
  else if username = "some-ldap-user" ∧ password = "some-ldap-password" then
    (happyAuthenticateResponse, true, none)
  else (noResponse, false, none)

def upstreamLDAPIdentityProvider : provider.UpstreamLDAPIdentityProviderI where
  GetName := "some-ldap-idp"
  GetResourceUID := "ldap-resource-uid"
  GetURL := upstreamLDAPURL
  AuthenticateUser := ldapAuthenticateFunc

def upstreamActiveDirectoryIdentityProvider : provider.UpstreamLDAPIdentityProviderI where
  GetName := "some-active-directory-idp"
  GetResourceUID := "active-directory-resource-uid"
  GetURL := upstreamLDAPURL
  AuthenticateUser := ldapAuthenticateFunc

def erroringUpstreamLDAPIdentityProvider : provider.UpstreamLDAPIdentityProviderI where
  GetName := "some-ldap-idp"
  GetResourceUID := "ldap-resource-uid"
  GetURL := ""
  AuthenticateUser := fun _ _ => (noResponse, false, some "some ldap upstream auth error")

/-- The lister `WithLDAP(&upstreamLDAPIdentityProvider)`. -/
def idpsLDAP : UpstreamIdentityProvidersLister := ⟨[upstreamLDAPIdentityProvider], []⟩

/-- The lister `WithLDAP(&erroringUpstreamLDAPIdentityProvider)`. -/
def idpsErroringLDAP : UpstreamIdentityProvidersLister :=
  ⟨[erroringUpstreamLDAPIdentityProvider], []⟩

/-- The empty lister. -/
def idpsEmpty : UpstreamIdentityProvidersLister := ⟨[], []⟩

/-- The space-separated fields of a scope parameter. -/
def fields (cur : List Char) : List Char → List String
  | [] => if cur = [] then [] else [String.mk cur.reverse]
  | c :: rest =>
    if c = ' ' then (if cur = [] then fields [] rest else String.mk cur.reverse :: fields [] rest)
    else fields (c :: cur) rest

def allowedScopes : List String :=
  ["openid", "offline_access", "profile", "email", "pinniped:request-audience"]

/-- A stand-in for the OAuth2 collaborator configured for the client `pinniped-cli`:
the authorize parser rejects an unknown client, a wrong redirect URI, an unsupported
response type, a short state and a scope that is not allowed; every authorize
response is stored as three records. -/
def oauthHelper : OAuth2Provider where
  NewAuthorizeRequest := fun authParams =>
    match url.ParseQuery authParams with
    | .error err => .error err
    | .ok form =>
      if form.Get "client_id" ≠ "pinniped-cli" then .error "invalid_client"
      else if form.Get "redirect_uri" ≠ "http://127.0.0.1/callback" then .error "invalid_request"
      else if form.Get "response_type" ≠ "code" then .error "unsupported_response_type"
      else if (form.Get "state").length < 8 then .error "invalid_state"
      else if (fields [] (form.Get "scope").data).any (fun s => !allowedScopes.contains s) then
        .error "invalid_scope"
      else .ok { RequestedScopes := fields [] (form.Get "scope").data
                 GrantedScopes := []
                 RedirectURI := form.Get "redirect_uri"
                 State := form.Get "state"
                 ResponseMode := form.Get "response_mode" }
  NewAuthorizeResponse := fun _ session =>
    (["authorize-code", "pkce", "openid-connect"], .ok ⟨"authcode-of-" ++ session.Username⟩)
  WriteAuthorizeResponse := fun requester responder =>
    { Code := 303
      Header := [("Location", [requester.RedirectURI ++ "?code=" ++ responder.Code
                    ++ "&scope=" ++ "+".intercalate requester.GrantedScopes
                    ++ "&state=" ++ requester.State])]
      Body := "" }
  WriteAuthorizeError := fun requester err =>
    { Code := 303
      Header := [("Location", [requester.RedirectURI ++ "?error=" ++ err
                    ++ "&state=" ++ requester.State])]
      Body := "" }

/-- The requester that the stand-in parser returns for the happy auth params. -/
def happyRequester : AuthorizeRequester where
  RequestedScopes := ["openid"]
  GrantedScopes := []
  RedirectURI := "http://127.0.0.1/callback"
  State := "8b-state"
  ResponseMode := ""

/-- A POST with the given form fields `username` and `password`. -/
def post (username password : String) : Request where
  PostForm := [("username", [username]), ("password", [password])]

/-- A POST with an empty form body and the credentials in the URL query. -/
def postQuery (username password : String) : Request where
  URLQuery := [("username", [username]), ("password", [password])]

end Login.Example

/-! ## The generated lister of UpstreamOIDCProviders

The file `generated/1.17/client/supervisor/listers/idp/v1alpha1/upstreamoidcprovider.go`.
The indexer (`cache.Indexer` of client-go) is a parameter; `P` is the type of the
pointers `*v1alpha1.UpstreamOIDCProvider`. -/

namespace Listers

/-- A Go `interface{}` value as the indexer hands it out: nil, a
`*v1alpha1.UpstreamOIDCProvider`, or a value of another dynamic type. -/
inductive Object (P : Type) where
  | nil
  | upstreamOIDCProvider (ptr : P)
  | other (typeName : String)

/-- The method `GetByKey(key) (item interface{}, exists bool, err error)` of
`cache.Indexer`; an error is given by its text, `none` is no error. -/
structure Indexer (P : Type) where
  GetByKey : String → Object P × Bool × Option String

/-- The type `schema.GroupResource` of apimachinery. -/
structure GroupResource where
  Group : String
  Resource : String
deriving DecidableEq, Repr

/-- The errors that `Get` returns: the indexer's own error, unchanged, or the value of
`errors.NewNotFound(qualifiedResource, name)`. -/
inductive Error where
  | indexer (err : String)
  | NewNotFound (qualifiedResource : GroupResource) (name : String)
deriving DecidableEq, Repr

/-- What a call of `Get` does: it returns a pair (`none` is nil), or the type assertion
`obj.(*v1alpha1.UpstreamOIDCProvider)` panics. -/
inductive GetResult (P : Type) where
  | returned (ret : Option P) (err : Option Error)
  | panic

/-- The struct `upstreamOIDCProviderLister`. -/
structure upstreamOIDCProviderLister (P : Type) where
  indexer : Indexer P

/-- The function `NewUpstreamOIDCProviderLister`. -/
def NewUpstreamOIDCProviderLister {P : Type} (indexer : Indexer P) : upstreamOIDCProviderLister P :=
  { indexer := indexer }

/-- The struct `upstreamOIDCProviderNamespaceLister`; its field `namespace` is spelt
`namespace_` here. -/
structure upstreamOIDCProviderNamespaceLister (P : Type) where
  indexer : Indexer P
  namespace_ : String

/-- The method `UpstreamOIDCProviders`. -/
def upstreamOIDCProviderLister.UpstreamOIDCProviders {P : Type} (s : upstreamOIDCProviderLister P)
    (namespace_ : String) : upstreamOIDCProviderNamespaceLister P :=
  { indexer := s.indexer, namespace_ := namespace_ }

/-- The method `Get` of the namespace lister.  `Resource` is the function
`v1alpha1.Resource` of the generated API package, which is outside the sources. -/
def upstreamOIDCProviderNamespaceLister.Get {P : Type} (Resource : String → GroupResource)
    (s : upstreamOIDCProviderNamespaceLister P) (name : String) : GetResult P :=
  match s.indexer.GetByKey (s.namespace_ ++ "/" ++ name) with
  | (_, _, some err) => .returned none (some (.indexer err))
  | (_, false, none) => .returned none (some (.NewNotFound (Resource "upstreamoidcprovider") name))
  | (.upstreamOIDCProvider ptr, true, none) => .returned (some ptr) none
  | (_, true, none) => .panic

namespace Example

/-- The function `v1alpha1.Resource` for the API group of the supervisor's IdPs. -/
def Resource (resource : String) : GroupResource :=
  { Group := "idp.supervisor.pinniped.dev", Resource := resource }

/-- An indexer that holds one provider under `supervisor/my-idp` and fails on the key
`supervisor/broken`; providers are given by their issuer. -/
def indexer : Indexer String where
  GetByKey := fun key =>
    if key = "supervisor/my-idp" then (.upstreamOIDCProvider "https://my-idp.example.com", true, none)
    else if key = "supervisor/broken" then (.nil, false, some "index is corrupt")
    else (.nil, false, none)

end Example

end Listers

/-! ## The OIDC identity projection and the response writer, from the specification

`downstreamsession.GetDownstreamIdentityFromUpstreamIDToken` (called by
`callback_handler.go`) and the writer of the downstream authcode response are not
among the sources; they are modelled from §4.3 and §4.7. -/

namespace Callback.url

/-- The characters that `QueryEscape` of Go's `net/url` leaves as they are: letters,
digits, `-`, `_`, `.` and `~`. -/
def unreserved (c : Char) : Bool :=
  ('a' ≤ c && c ≤ 'z') || ('A' ≤ c && c ≤ 'Z') || ('0' ≤ c && c ≤ '9')
    || c = '-' || c = '_' || c = '.' || c = '~'

/-- The upper-case hexadecimal digit of a number below 16. -/
def upperhex (n : Nat) : Char :=
  ['0', '1', '2', '3', '4', '5', '6', '7', '8', '9', 'A', 'B', 'C', 'D', 'E', 'F'].getD n '0'

/-- The bytes of the UTF-8 encoding of a character. -/
def utf8 (c : Char) : List Nat :=
  let n := c.toNat
  if n < 0x80 then [n]
  else if n < 0x800 then [0xC0 + n / 64, 0x80 + n % 64]
  else if n < 0x10000 then [0xE0 + n / 4096, 0x80 + n / 64 % 64, 0x80 + n % 64]
  else [0xF0 + n / 262144, 0x80 + n / 4096 % 64, 0x80 + n / 64 % 64, 0x80 + n % 64]

/-- The function `QueryEscape`: a space becomes `+`, an unreserved character stays,
every other byte becomes `%` and its two upper-case hexadecimal digits. -/
def QueryEscape (s : String) : String :=
  String.mk ((s.data.map fun c =>
    if c = ' ' then ['+']
    else if unreserved c then [c]
    else ((utf8 c).map fun b => ['%', upperhex (b / 16), upperhex (b % 16)]).flatten).flatten)

end Callback.url

namespace provider

/-- Modelled from the spec: the registry entry `UpstreamOIDCIdentityProvider` of §3, as
far as the session builder reads it: name, resource UID and the claim-mapping rules
(username claim, groups claim). -/
structure UpstreamOIDCIdentityProvider where
  GetName : String
  GetResourceUID : String
  GetUsernameClaim : String
  GetGroupsClaim : String
deriving DecidableEq, Repr

end provider

namespace downstreamsession

/-- A value of the claims map of an ID token (`map[string]interface{}`): a string, a
list of strings, or a value of another type. -/
inductive ClaimValue where
  | string (s : String)
  | strings (l : List String)
  | other
deriving DecidableEq, Repr

/-- The claims of an upstream ID token, `token.IDToken.Claims`. -/
abbrev Claims := List (String × ClaimValue)

/-- Modelled from the spec: the username of §4.3: the value of the configured username
claim; "if absent and the username claim is `email`, fall back to `email`; else fail
`IdentityProjection`". -/
def getUsername (usernameClaim : String) (idTokenClaims : Claims) : Except String String :=
  match idTokenClaims.lookup usernameClaim with
  | some (.string v) => .ok v
  | _ =>
    if usernameClaim = "email" then
      match idTokenClaims.lookup "email" with
      | some (.string v) => .ok v
      | _ => .error "IdentityProjection"
    else .error "IdentityProjection"

/-- Modelled from the spec: the groups of §4.3: the value of the configured groups
claim, the empty list if absent, a single string coerced to a one-element list.  A
value that is neither a string nor a list of strings has no projection. -/
def getGroups (groupsClaim : String) (idTokenClaims : Claims) : Except String (List String) :=
  match idTokenClaims.lookup groupsClaim with
  | none => .ok []
  | some (.string g) => .ok [g]
  | some (.strings gs) => .ok gs
  | some .other => .error "IdentityProjection"

/-- Modelled from the spec: `downstreamsession.GetDownstreamIdentityFromUpstreamIDToken`,
the OIDC identity projection of §4.3, returning (subject, username, groups).  The
upstream issuer and subject are the claims `iss` and `sub`, which the token validation
of §4.5 step 5 has checked; a token without them has no projection. -/
def GetDownstreamIdentityFromUpstreamIDToken
    (upstreamIDPConfig : provider.UpstreamOIDCIdentityProvider) (idTokenClaims : Claims) :
    Except String (String × String × List String) :=
  match idTokenClaims.lookup "iss", idTokenClaims.lookup "sub" with
  | some (.string upstreamIssuer), some (.string upstreamSubject) =>
    let subject := upstreamIssuer ++ "?sub=" ++ upstreamSubject
    match getUsername upstreamIDPConfig.GetUsernameClaim idTokenClaims with
    | .error err => .error err
    | .ok username =>
      match getGroups upstreamIDPConfig.GetGroupsClaim idTokenClaims with
      | .error err => .error err
      | .ok groups => .ok (subject, username, groups)
  | _, _ => .error "IdentityProjection"

namespace Example

/-- An OIDC provider that reads the username from `email` and the groups from `groups`. -/
def idp : provider.UpstreamOIDCIdentityProvider where
  GetName := "some-oidc-idp"
  GetResourceUID := "oidc-resource-uid"
  GetUsernameClaim := "email"
  GetGroupsClaim := "groups"

/-- An OIDC provider that reads the username from `name` and the groups from `roles`. -/
def otherIdp : provider.UpstreamOIDCIdentityProvider where
  GetName := "other-oidc-idp"
  GetResourceUID := "other-oidc-resource-uid"
  GetUsernameClaim := "name"
  GetGroupsClaim := "roles"

/-- The claims of another ID token of the same issuer and subject. -/
def otherClaims : Claims :=
  [("sub", .string "abc123-some guid"),
   ("name", .string "Joe Q. Public"),
   ("roles", .string "admins"),
   ("iss", .string "https://my-upstream-issuer.com"),
   ("email", .string "someone-else@example.com")]

/-- The claims of an upstream ID token. -/
def claims : Claims :=
  [("iss", .string "https://my-upstream-issuer.com"),
   ("sub", .string "abc123-some guid"),
   ("email", .string "joe@whitehouse.gov"),
   ("groups", .strings ["test-pinniped-group-0", "test-pinniped-group-1"]),
   ("other-claim", .other)]

end Example

end downstreamsession

namespace ResponseWriter

open Callback fosite

/-- Modelled from the spec: the opaque `TemplateRenderer` of §1: the HTML document of
the form_post response, a self-submitting form whose action is the redirect URI and
whose fields are `code`, `scope` and `state`, and the Content-Security-Policy it is
emitted with (§4.7). -/
structure TemplateRenderer where
  FormPostHTML : String → String → String → String → String
  ContentSecurityPolicy : String

def StatusOK : Nat := 200

/-- Modelled from the spec: the response writer of §4.7 and §6.  With
`response_mode=form_post`: 200 and the HTML document; otherwise 303 with
`Location: redirect_uri?code=…&scope=…&state=…`, the scope being the space-joined
granted scopes, URL-encoded.  The content type is the one the test expects of every
response. -/
def WriteAuthorizeResponse (renderer : TemplateRenderer) (requester : AuthorizeRequester)
    (responder : AuthorizeResponder) : Login.HTTPResponse :=
  let scope := " ".intercalate requester.GrantedScopes
  if requester.ResponseMode = "form_post" then
    { Code := StatusOK
      Header := [("Content-Type", ["text/html; charset=utf-8"]),
                 ("Content-Security-Policy", [renderer.ContentSecurityPolicy])]
      Body := renderer.FormPostHTML requester.RedirectURI responder.Code scope requester.State }
  else
    { Code := Login.StatusSeeOther
      Header := [("Content-Type", ["text/html; charset=utf-8"]),
                 ("Location", [requester.RedirectURI ++ "?code=" ++ responder.Code
                                 ++ "&scope=" ++ url.QueryEscape scope
                                 ++ "&state=" ++ requester.State])]
      Body := "" }

namespace Example

/-- A stand-in template: the fields, in a form. -/
def renderer : TemplateRenderer where
  FormPostHTML := fun redirectURI code scope state =>
    "<html><form method=\"post\" action=\"" ++ redirectURI ++ "\"><input name=\"code\" value=\""
      ++ code ++ "\"><input name=\"scope\" value=\"" ++ scope ++ "\"><input name=\"state\" value=\""
      ++ state ++ "\"></form></html>"
  ContentSecurityPolicy := "default-src none"

end Example

end ResponseWriter

/-! ## Properties of the callback handler -/

namespace Callback

open Example

section

variable {T : Types}

/-- The loop of `findUpstreamIDPConfig` ends without a provider exactly when no
provider of the list has the requested name. -/
theorem findUpstreamIDPConfig_loop_eq_none_iff (upstreamName : String)
    (l : List (UpstreamOIDCIdentityProviderI T)) :
    findUpstreamIDPConfig.loop upstreamName l = none ↔ ∀ p ∈ l, p.GetName ≠ upstreamName := by
  induction l with
  | nil => simp [findUpstreamIDPConfig.loop]
  | cons p rest ih =>
    by_cases hp : p.GetName = upstreamName
    · simp [findUpstreamIDPConfig.loop, hp]
    · simp [findUpstreamIDPConfig.loop, hp, ih]

/-- A validated request is a GET request that passed the state/CSRF validation and has
a code: `validateRequest` made exactly the one call. -/
theorem validateRequest_ok_trace (pk : Packages T) (r : Request)
    (stateDecoder cookieDecoder : T.Decoder) (st : UpstreamStateParamData)
    (h : (validateRequest pk r stateDecoder cookieDecoder).result = .ok st) :
    (validateRequest pk r stateDecoder cookieDecoder).calls
      = [Call.ReadStateParamAndValidateCSRFCookie] := by
  revert h
  unfold validateRequest
  repeat' split
  all_goals simp_all [Outcome.calls, Event.call]

/-- C1: when the method check or the state/CSRF validation fails, the handler returns
that failure (the 405 error, or the validator's own error unchanged) and calls none
of NewAuthorizeRequest, ExchangeAuthcodeAndValidateTokens, NewAuthorizeResponse and
WriteAuthorizeResponse. -/
theorem NewHandler_validation_failure_no_storage_call (pk : Packages T)
    (upstreamIDPs : UpstreamOIDCIdentityProvidersLister T) (oauthHelper : OAuth2Provider T)
    (stateDecoder cookieDecoder : T.Decoder) (redirectURI : String) (r : Request)
    (h : r.Method ≠ http.MethodGet ∨
      ∃ err, pk.ReadStateParamAndValidateCSRFCookie r cookieDecoder stateDecoder = .error err) :
    (r.Method ≠ http.MethodGet →
        (NewHandler pk upstreamIDPs oauthHelper stateDecoder cookieDecoder redirectURI r).result
          = .error (.httpErr 405 (r.Method ++ " (try GET)") none))
      ∧ (∀ err, r.Method = http.MethodGet →
          pk.ReadStateParamAndValidateCSRFCookie r cookieDecoder stateDecoder = .error err →
          (NewHandler pk upstreamIDPs oauthHelper stateDecoder cookieDecoder redirectURI r).result
            = .error err)
      ∧ Call.NewAuthorizeRequest ∉
          (NewHandler pk upstreamIDPs oauthHelper stateDecoder cookieDecoder redirectURI r).calls
      ∧ Call.ExchangeAuthcodeAndValidateTokens ∉
          (NewHandler pk upstreamIDPs oauthHelper stateDecoder cookieDecoder redirectURI r).calls
      ∧ Call.NewAuthorizeResponse ∉
          (NewHandler pk upstreamIDPs oauthHelper stateDecoder cookieDecoder redirectURI r).calls
      ∧ Call.WriteAuthorizeResponse ∉
          (NewHandler pk upstreamIDPs oauthHelper stateDecoder cookieDecoder redirectURI r).calls := by
  by_cases hm : r.Method = http.MethodGet
  · rcases h with h | ⟨err, h⟩
    · exact absurd hm h
    · simp [NewHandler, validateRequest, hm, h, Outcome.calls, Event.call]
  · simp [NewHandler, validateRequest, hm, Outcome.calls, httperr.Newf,
      http.StatusMethodNotAllowed]

/-- Witness of C1: a GET callback whose state parameter does not decode. -/
theorem NewHandler_validation_failure_no_storage_call_witness :
    (NewHandler pk0 idps0 oauth0 () () redirectURI (callback "garbage" "some-code")).result
        = .error (.httpErr 400 "error reading state" none)
      ∧ Call.NewAuthorizeRequest ∉
          (NewHandler pk0 idps0 oauth0 () () redirectURI (callback "garbage" "some-code")).calls
      ∧ Call.ExchangeAuthcodeAndValidateTokens ∉
          (NewHandler pk0 idps0 oauth0 () () redirectURI (callback "garbage" "some-code")).calls
      ∧ Call.NewAuthorizeResponse ∉
          (NewHandler pk0 idps0 oauth0 () () redirectURI (callback "garbage" "some-code")).calls
      ∧ Call.WriteAuthorizeResponse ∉
          (NewHandler pk0 idps0 oauth0 () () redirectURI (callback "garbage" "some-code")).calls :=
  have h := NewHandler_validation_failure_no_storage_call pk0 idps0 oauth0 () () redirectURI
    (callback "garbage" "some-code") (.inr ⟨.httpErr 400 "error reading state" none, rfl⟩)
  ⟨h.2.1 _ rfl rfl, h.2.2⟩

/-- C2: a callback request whose method is not GET makes `validateRequest` fail with
status 405 and no decoded state, whatever its parameters and cookies are; no
collaborator is called, so the state and cookie decoders are never consulted. -/
theorem validateRequest_method_not_allowed (pk : Packages T) (r : Request)
    (stateDecoder cookieDecoder : T.Decoder) (h : r.Method ≠ http.MethodGet) :
    (validateRequest pk r stateDecoder cookieDecoder).result
        = .error (.httpErr 405 (r.Method ++ " (try GET)") none)
      ∧ (validateRequest pk r stateDecoder cookieDecoder).trace = [] := by
  simp [validateRequest, h, httperr.Newf, http.StatusMethodNotAllowed]

/-- Witness of C2: a POST carrying a valid state, cookie and code. -/
theorem validateRequest_method_not_allowed_witness :
    (validateRequest pk0 { callback "happy-state" "some-code" with Method := "POST" } () ()).result
        = .error (.httpErr 405 "POST (try GET)" none)
      ∧ (validateRequest pk0 { callback "happy-state" "some-code" with Method := "POST" } () ()).trace
        = [] :=
  validateRequest_method_not_allowed pk0 { callback "happy-state" "some-code" with Method := "POST" }
    () () (by decide)

/-- C3: for a GET callback whose state and CSRF cookie validate: when the request's
`code` parameter is empty or absent (no `code` key in the form, a key without a value,
or an empty first value) `validateRequest` and the handler fail with status 400 and
message "code param not found"; when the request's `code` parameter is not empty
(the first value of the key `code` is a non-empty string) `validateRequest` returns
exactly the state that the state/CSRF validation decoded. -/
theorem validateRequest_code_param (pk : Packages T)
    (upstreamIDPs : UpstreamOIDCIdentityProvidersLister T) (oauthHelper : OAuth2Provider T)
    (stateDecoder cookieDecoder : T.Decoder) (redirectURI : String) (r : Request)
    (csrf : String) (st : UpstreamStateParamData)
    (hm : r.Method = http.MethodGet)
    (hs : pk.ReadStateParamAndValidateCSRFCookie r cookieDecoder stateDecoder = .ok (csrf, st)) :
    (r.FormValue "code" = "" →
        (validateRequest pk r stateDecoder cookieDecoder).result
          = .error (.httpErr 400 "code param not found" none)
        ∧ (NewHandler pk upstreamIDPs oauthHelper stateDecoder cookieDecoder redirectURI r).result
          = .error (.httpErr 400 "code param not found" none))
      ∧ (r.FormValue "code" ≠ "" →
          (validateRequest pk r stateDecoder cookieDecoder).result = .ok st)
      ∧ (r.Form.lookup "code" = none ∨ r.Form.lookup "code" = some []
            ∨ (∃ rest, r.Form.lookup "code" = some ("" :: rest)) →
          (validateRequest pk r stateDecoder cookieDecoder).result
            = .error (.httpErr 400 "code param not found" none)
          ∧ (NewHandler pk upstreamIDPs oauthHelper stateDecoder cookieDecoder redirectURI r).result
            = .error (.httpErr 400 "code param not found" none))
      ∧ (∀ code rest, r.Form.lookup "code" = some (code :: rest) → code ≠ "" →
          (validateRequest pk r stateDecoder cookieDecoder).result = .ok st) := by
  have hempty : r.FormValue "code" = "" →
      (validateRequest pk r stateDecoder cookieDecoder).result
        = .error (.httpErr 400 "code param not found" none)
      ∧ (NewHandler pk upstreamIDPs oauthHelper stateDecoder cookieDecoder redirectURI r).result
        = .error (.httpErr 400 "code param not found" none) := by
    intro hc
    have hc' : authcode r = "" := hc
    simp [NewHandler, validateRequest, hm, hs, hc', httperr.New, http.StatusBadRequest]
  have hfull : r.FormValue "code" ≠ "" →
      (validateRequest pk r stateDecoder cookieDecoder).result = .ok st := by
    intro hc
    have hc' : authcode r ≠ "" := hc
    simp [validateRequest, hm, hs, hc']
  refine ⟨hempty, hfull, ?_, ?_⟩
  · rintro (hl | hl | ⟨rest, hl⟩)
    all_goals exact hempty (by simp [Request.FormValue, Values.Get, hl])
  · intro code rest hl hcode
    exact hfull (by simpa [Request.FormValue, Values.Get, hl] using hcode)

/-- Witness of C3: GET callbacks with a valid state and cookie: one with an empty code,
one without any `code` parameter, and one with the code `some-code`. -/
theorem validateRequest_code_param_witness :
    (NewHandler pk0 idps0 oauth0 () () redirectURI (callback "happy-state" "")).result
        = .error (.httpErr 400 "code param not found" none)
      ∧ (NewHandler pk0 idps0 oauth0 () () redirectURI
          { Method := "GET", Form := [("state", ["happy-state"])],
            Cookies := [("__Host-pinniped-csrf", "test-csrf")] }).result
        = .error (.httpErr 400 "code param not found" none)
      ∧ (validateRequest pk0 (callback "happy-state" "some-code") () ()).result = .ok happyState :=
  ⟨((validateRequest_code_param pk0 idps0 oauth0 () () redirectURI (callback "happy-state" "")
      "test-csrf" happyState rfl rfl).2.2.1 (.inr (.inr ⟨[], rfl⟩))).2,
   ((validateRequest_code_param pk0 idps0 oauth0 () () redirectURI
      { Method := "GET", Form := [("state", ["happy-state"])],
        Cookies := [("__Host-pinniped-csrf", "test-csrf")] }
      "test-csrf" happyState rfl rfl).2.2.1 (.inl rfl)).2,
   (validateRequest_code_param pk0 idps0 oauth0 () () redirectURI
      (callback "happy-state" "some-code") "test-csrf" happyState rfl rfl).2.2.2
      "some-code" [] rfl (by decide)⟩

/-- Counterexample to C4: a validated state of type `ldap` names an IdP that the LDAP
list (empty here) does not have and that exists only in the OIDC list; the handler
does not fail with provider-not-found, it runs the upstream token exchange against
the OIDC IdP of that name and succeeds. -/
theorem NewHandler_upstream_type_counterexample :
    (validateRequest pk0 (callback "ldap-state" "some-code") () ()).result = .ok ldapState
      ∧ ldapState.UpstreamType = "ldap"
      ∧ ldapState.UpstreamName ∉ registry0.namesFor ldapState.UpstreamType
      ∧ (NewHandler pk0 registry0.oidcLister oauth0 () () redirectURI
          (callback "ldap-state" "some-code")).result = .ok ()
      ∧ Event.ExchangeAuthcodeAndValidateTokens "some-oidc-idp" "some-code" "test-pkce"
          "test-nonce" redirectURI (.ok "token-of-some-code") ∈
          (NewHandler pk0 registry0.oidcLister oauth0 () () redirectURI
            (callback "ldap-state" "some-code")).trace :=
  ⟨rfl, rfl, by decide, rfl, .tail _ (.tail _ (.tail _ (.tail _ (.head _))))⟩

/-- C4, amended: the upstream IdP is resolved in the OIDC list by name alone, whatever
the state's UpstreamType: for a validated state the handler fails with
provider-not-found exactly when no IdP of the OIDC list has the state's UpstreamName. -/
theorem NewHandler_provider_not_found_iff (pk : Packages T)
    (upstreamIDPs : UpstreamOIDCIdentityProvidersLister T) (oauthHelper : OAuth2Provider T)
    (stateDecoder cookieDecoder : T.Decoder) (redirectURI : String) (r : Request)
    (st : UpstreamStateParamData)
    (hv : (validateRequest pk r stateDecoder cookieDecoder).result = .ok st) :
    (NewHandler pk upstreamIDPs oauthHelper stateDecoder cookieDecoder redirectURI r).result
        = .error (httperr.New http.StatusUnprocessableEntity "upstream provider not found")
      ↔ ∀ p ∈ upstreamIDPs.GetOIDCIdentityProviders, p.GetName ≠ st.UpstreamName := by
  rw [← findUpstreamIDPConfig_loop_eq_none_iff]
  unfold NewHandler
  simp only [hv, findUpstreamIDPConfig]
  repeat' split
  all_goals simp_all [httperr.New, httperr.Wrap, http.StatusUnprocessableEntity,
    http.StatusBadRequest, http.StatusBadGateway, http.StatusInternalServerError]

/-- Witness of C4 amended: the `ldap` state naming an IdP of the OIDC list. -/
theorem NewHandler_provider_not_found_iff_witness :
    ((NewHandler pk0 idps0 oauth0 () () redirectURI (callback "ldap-state" "some-code")).result
        = .error (httperr.New http.StatusUnprocessableEntity "upstream provider not found")
      ↔ ∀ p ∈ idps0.GetOIDCIdentityProviders, p.GetName ≠ ldapState.UpstreamName) :=
  NewHandler_provider_not_found_iff pk0 idps0 oauth0 () () redirectURI
    (callback "ldap-state" "some-code") ldapState rfl

/-- C5: for a validated request whose state names no provider of the OIDC list (so
also when the list is empty), the handler fails with status 422 and message
"upstream provider not found", and calls none of NewAuthorizeRequest,
ExchangeAuthcodeAndValidateTokens and NewAuthorizeResponse. -/
theorem NewHandler_provider_not_found (pk : Packages T)
    (upstreamIDPs : UpstreamOIDCIdentityProvidersLister T) (oauthHelper : OAuth2Provider T)
    (stateDecoder cookieDecoder : T.Decoder) (redirectURI : String) (r : Request)
    (st : UpstreamStateParamData)
    (hv : (validateRequest pk r stateDecoder cookieDecoder).result = .ok st)
    (hn : ∀ p ∈ upstreamIDPs.GetOIDCIdentityProviders, p.GetName ≠ st.UpstreamName) :
    (NewHandler pk upstreamIDPs oauthHelper stateDecoder cookieDecoder redirectURI r).result
        = .error (.httpErr 422 "upstream provider not found" none)
      ∧ Call.NewAuthorizeRequest ∉
          (NewHandler pk upstreamIDPs oauthHelper stateDecoder cookieDecoder redirectURI r).calls
      ∧ Call.ExchangeAuthcodeAndValidateTokens ∉
          (NewHandler pk upstreamIDPs oauthHelper stateDecoder cookieDecoder redirectURI r).calls
      ∧ Call.NewAuthorizeResponse ∉
          (NewHandler pk upstreamIDPs oauthHelper stateDecoder cookieDecoder redirectURI r).calls := by
  have hnone := (findUpstreamIDPConfig_loop_eq_none_iff st.UpstreamName _).2 hn
  have hcalls := validateRequest_ok_trace pk r stateDecoder cookieDecoder st hv
  simp only [Outcome.calls] at hcalls
  simp [NewHandler, hv, findUpstreamIDPConfig, hnone, Outcome.calls, hcalls, Event.call,
    httperr.New, http.StatusUnprocessableEntity]

/-- Witness of C5: a valid callback whose state names `other-idp`, with an empty list. -/
theorem NewHandler_provider_not_found_witness :
    (NewHandler pk0 ⟨[]⟩ oauth0 () () redirectURI (callback "other-idp-state" "some-code")).result
        = .error (.httpErr 422 "upstream provider not found" none)
      ∧ Call.NewAuthorizeRequest ∉
          (NewHandler pk0 ⟨[]⟩ oauth0 () () redirectURI (callback "other-idp-state" "some-code")).calls
      ∧ Call.ExchangeAuthcodeAndValidateTokens ∉
          (NewHandler pk0 ⟨[]⟩ oauth0 () () redirectURI (callback "other-idp-state" "some-code")).calls
      ∧ Call.NewAuthorizeResponse ∉
          (NewHandler pk0 ⟨[]⟩ oauth0 () () redirectURI (callback "other-idp-state" "some-code")).calls :=
  NewHandler_provider_not_found pk0 ⟨[]⟩ oauth0 () () redirectURI
    (callback "other-idp-state" "some-code") otherIDPState rfl (by simp)

/-- C6: when NewAuthorizeRequest rejects the request rebuilt from the state's
AuthParams, the handler returns the error of message exactly "error using state
downstream auth params" (status 400, no cause: the collaborator's text is not in
it), and neither the upstream token exchange nor NewAuthorizeResponse is called. -/
theorem NewHandler_authorize_request_rejected (pk : Packages T)
    (upstreamIDPs : UpstreamOIDCIdentityProvidersLister T) (oauthHelper : OAuth2Provider T)
    (stateDecoder cookieDecoder : T.Decoder) (redirectURI : String) (r : Request)
    (req : Request) (err : String)
    (h : Event.NewAuthorizeRequest req (.error err) ∈
      (NewHandler pk upstreamIDPs oauthHelper stateDecoder cookieDecoder redirectURI r).trace) :
    (NewHandler pk upstreamIDPs oauthHelper stateDecoder cookieDecoder redirectURI r).result
        = .error (.httpErr 400 "error using state downstream auth params" none)
      ∧ Call.ExchangeAuthcodeAndValidateTokens ∉
          (NewHandler pk upstreamIDPs oauthHelper stateDecoder cookieDecoder redirectURI r).calls
      ∧ Call.NewAuthorizeResponse ∉
          (NewHandler pk upstreamIDPs oauthHelper stateDecoder cookieDecoder redirectURI r).calls := by
  revert h
  unfold NewHandler validateRequest
  simp only [Outcome.calls]
  repeat' split
  all_goals simp_all [Event.call, httperr.New, http.StatusBadRequest]

/-- Witness of C6: a valid callback whose state's auth params lack the client id. -/
theorem NewHandler_authorize_request_rejected_witness :
    (NewHandler pk0 idps0 oauth0 () () redirectURI (callback "no-client-state" "some-code")).result
        = .error (.httpErr 400 "error using state downstream auth params" none)
      ∧ Call.ExchangeAuthcodeAndValidateTokens ∉
          (NewHandler pk0 idps0 oauth0 () () redirectURI (callback "no-client-state" "some-code")).calls
      ∧ Call.NewAuthorizeResponse ∉
          (NewHandler pk0 idps0 oauth0 () () redirectURI (callback "no-client-state" "some-code")).calls :=
  NewHandler_authorize_request_rejected pk0 idps0 oauth0 () () redirectURI
    (callback "no-client-state" "some-code") { Form := [("scope", ["openid"])] } "invalid_client"
    (.tail _ (.tail _ (.head _)))

/-- Counterexample to C7: a validated state whose AuthParams is `%`, which is not a
URL-encoded query; the provider is found, `url.ParseQuery` fails, and the handler's
error message is "error reading state downstream auth params", not "error using
state downstream auth params". -/
theorem NewHandler_unparsable_params_counterexample :
    (validateRequest pk0 (callback "unparsable-params-state" "some-code") () ()).result
        = .ok unparsableParamsState
      ∧ url.ParseQuery unparsableParamsState.AuthParams = .error "invalid URL escape \"%\""
      ∧ (NewHandler pk0 idps0 oauth0 () () redirectURI
          (callback "unparsable-params-state" "some-code")).result
        = .error (.httpErr 400 "error reading state downstream auth params" none)
      ∧ (GoError.httpErr 400 "error reading state downstream auth params" none).message
        ≠ "error using state downstream auth params" :=
  ⟨rfl, rfl, rfl, by decide⟩

/-- C7, amended: a failure of step 3 is surfaced as status 400 with one of two
messages: "error reading state downstream auth params" when the state's AuthParams
cannot be parsed as a URL-encoded query, and "error using state downstream auth
params" when the OAuth2 collaborator rejects the parsed parameters. -/
theorem NewHandler_reconstruct_failure (pk : Packages T)
    (upstreamIDPs : UpstreamOIDCIdentityProvidersLister T) (oauthHelper : OAuth2Provider T)
    (stateDecoder cookieDecoder : T.Decoder) (redirectURI : String) (r : Request)
    (st : UpstreamStateParamData) (idp : UpstreamOIDCIdentityProviderI T)
    (hv : (validateRequest pk r stateDecoder cookieDecoder).result = .ok st)
    (hp : findUpstreamIDPConfig st.UpstreamName upstreamIDPs = some idp) :
    (∀ err, pk.ParseQuery st.AuthParams = .error err →
        (NewHandler pk upstreamIDPs oauthHelper stateDecoder cookieDecoder redirectURI r).result
          = .error (.httpErr 400 "error reading state downstream auth params" none))
      ∧ (∀ params err, pk.ParseQuery st.AuthParams = .ok params →
          oauthHelper.NewAuthorizeRequest { Form := params } = .error err →
          (NewHandler pk upstreamIDPs oauthHelper stateDecoder cookieDecoder redirectURI r).result
            = .error (.httpErr 400 "error using state downstream auth params" none)) := by
  constructor
  · intro err he
    simp [NewHandler, hv, hp, he, httperr.New, http.StatusBadRequest]
  · intro params err hq he
    simp [NewHandler, hv, hp, hq, he, httperr.New, http.StatusBadRequest]

/-- Witness of C7 amended: the state whose AuthParams is `%`. -/
theorem NewHandler_reconstruct_failure_witness :
    (NewHandler pk0 idps0 oauth0 () () redirectURI
        (callback "unparsable-params-state" "some-code")).result
      = .error (.httpErr 400 "error reading state downstream auth params" none) :=
  (NewHandler_reconstruct_failure pk0 idps0 oauth0 () () redirectURI
    (callback "unparsable-params-state" "some-code") unparsableParamsState happyIDP rfl rfl).1
    "invalid URL escape \"%\"" rfl

/-- C8: when the upstream IdP's ExchangeAuthcodeAndValidateTokens returns an error,
the handler fails with status 502 and the fixed message "error exchanging and
validating upstream tokens" (no cause: the upstream error's text is not in it), and
neither NewAuthorizeResponse nor WriteAuthorizeResponse is called. -/
theorem NewHandler_exchange_failure (pk : Packages T)
    (upstreamIDPs : UpstreamOIDCIdentityProvidersLister T) (oauthHelper : OAuth2Provider T)
    (stateDecoder cookieDecoder : T.Decoder) (redirectURI : String) (r : Request)
    (idp code pkce nonce uri err : String)
    (h : Event.ExchangeAuthcodeAndValidateTokens idp code pkce nonce uri (.error err) ∈
      (NewHandler pk upstreamIDPs oauthHelper stateDecoder cookieDecoder redirectURI r).trace) :
    (NewHandler pk upstreamIDPs oauthHelper stateDecoder cookieDecoder redirectURI r).result
        = .error (.httpErr 502 "error exchanging and validating upstream tokens" none)
      ∧ Call.NewAuthorizeResponse ∉
          (NewHandler pk upstreamIDPs oauthHelper stateDecoder cookieDecoder redirectURI r).calls
      ∧ Call.WriteAuthorizeResponse ∉
          (NewHandler pk upstreamIDPs oauthHelper stateDecoder cookieDecoder redirectURI r).calls := by
  revert h
  unfold NewHandler validateRequest
  simp only [Outcome.calls]
  repeat' split
  all_goals simp_all [Event.call, httperr.New, http.StatusBadGateway]

/-- Witness of C8: a valid callback served by an IdP whose token exchange fails. -/
theorem NewHandler_exchange_failure_witness :
    (NewHandler pk0 ⟨[erroringIDP]⟩ oauth0 () () redirectURI
        (callback "happy-state" "some-code")).result
        = .error (.httpErr 502 "error exchanging and validating upstream tokens" none)
      ∧ Call.NewAuthorizeResponse ∉
          (NewHandler pk0 ⟨[erroringIDP]⟩ oauth0 () () redirectURI
            (callback "happy-state" "some-code")).calls
      ∧ Call.WriteAuthorizeResponse ∉
          (NewHandler pk0 ⟨[erroringIDP]⟩ oauth0 () () redirectURI
            (callback "happy-state" "some-code")).calls :=
  NewHandler_exchange_failure pk0 ⟨[erroringIDP]⟩ oauth0 () () redirectURI
    (callback "happy-state" "some-code") "some-oidc-idp" "some-code" "test-pkce" "test-nonce"
    redirectURI "some upstream error" (.tail _ (.tail _ (.tail _ (.tail _ (.head _)))))

/-- C9: when projecting the downstream identity from the upstream ID token claims
fails, or building the OIDC custom session data from the upstream token fails, the
handler fails with status 422 and the message of that error (which it wraps), and
NewAuthorizeResponse is not called. -/
theorem NewHandler_identity_or_session_data_failure (pk : Packages T)
    (upstreamIDPs : UpstreamOIDCIdentityProvidersLister T) (oauthHelper : OAuth2Provider T)
    (stateDecoder cookieDecoder : T.Decoder) (redirectURI : String) (r : Request)
    (idp : String) (claims : T.Claims) (token : T.Token) (err : String)
    (h : Event.GetDownstreamIdentityFromUpstreamIDToken idp claims (.error err) ∈
          (NewHandler pk upstreamIDPs oauthHelper stateDecoder cookieDecoder redirectURI r).trace
        ∨ Event.MakeDownstreamOIDCCustomSessionData idp token (.error err) ∈
          (NewHandler pk upstreamIDPs oauthHelper stateDecoder cookieDecoder redirectURI r).trace) :
    (NewHandler pk upstreamIDPs oauthHelper stateDecoder cookieDecoder redirectURI r).result
        = .error (.httpErr 422 err (some err))
      ∧ Call.NewAuthorizeResponse ∉
          (NewHandler pk upstreamIDPs oauthHelper stateDecoder cookieDecoder redirectURI r).calls := by
  revert h
  unfold NewHandler validateRequest
  simp only [Outcome.calls]
  repeat' split
  all_goals simp_all [Event.call, httperr.Wrap, http.StatusUnprocessableEntity]

/-- Witness of C9: a valid callback whose ID token lacks the username claim. -/
theorem NewHandler_identity_or_session_data_failure_witness :
    (NewHandler pkNoUsername idps0 oauth0 () () redirectURI
        (callback "happy-state" "some-code")).result
        = .error (.httpErr 422 "required claim in upstream ID token missing"
            (some "required claim in upstream ID token missing"))
      ∧ Call.NewAuthorizeResponse ∉
          (NewHandler pkNoUsername idps0 oauth0 () () redirectURI
            (callback "happy-state" "some-code")).calls :=
  NewHandler_identity_or_session_data_failure pkNoUsername idps0 oauth0 () () redirectURI
    (callback "happy-state" "some-code") "some-oidc-idp" "token-of-some-code" "token-of-some-code"
    "required claim in upstream ID token missing"
    (.inl (.tail _ (.tail _ (.tail _ (.tail _ (.tail _ (.head _)))))))

/-- C10: when NewAuthorizeResponse returns an error, the handler fails with status 500
and message "error while generating and saving authcode" (wrapping that error), and
WriteAuthorizeResponse is not called. -/
theorem NewHandler_authorize_response_failure (pk : Packages T)
    (upstreamIDPs : UpstreamOIDCIdentityProvidersLister T) (oauthHelper : OAuth2Provider T)
    (stateDecoder cookieDecoder : T.Decoder) (redirectURI : String) (r : Request)
    (requester : T.Requester) (session : T.Session) (err : String)
    (h : Event.NewAuthorizeResponse requester session (.error err) ∈
      (NewHandler pk upstreamIDPs oauthHelper stateDecoder cookieDecoder redirectURI r).trace) :
    (NewHandler pk upstreamIDPs oauthHelper stateDecoder cookieDecoder redirectURI r).result
        = .error (.httpErr 500 "error while generating and saving authcode" (some err))
      ∧ Call.WriteAuthorizeResponse ∉
          (NewHandler pk upstreamIDPs oauthHelper stateDecoder cookieDecoder redirectURI r).calls := by
  revert h
  unfold NewHandler validateRequest
  simp only [Outcome.calls]
  repeat' split
  all_goals simp_all [Event.call, httperr.Wrap, http.StatusInternalServerError]

/-- Witness of C10: a valid callback, with an OAuth2 provider whose storage fails. -/
theorem NewHandler_authorize_response_failure_witness :
    (NewHandler pk0 idps0 oauthStorageDown () () redirectURI
        (callback "happy-state" "some-code")).result
        = .error (.httpErr 500 "error while generating and saving authcode"
            (some "some storage error"))
      ∧ Call.WriteAuthorizeResponse ∉
          (NewHandler pk0 idps0 oauthStorageDown () () redirectURI
            (callback "happy-state" "some-code")).calls :=
  NewHandler_authorize_response_failure pk0 idps0 oauthStorageDown () () redirectURI
    (callback "happy-state" "some-code")
    { Form := [("response_type", ["code"]), ("scope", ["openid"]), ("client_id", ["pinniped-cli"]),
               ("state", ["8b-state"]), ("redirect_uri", ["http://127.0.0.1/callback"])] }
    ("https://some-oidc-idp?sub=token-of-some-code", "joe", ["group1"], "some-oidc-idp")
    "some storage error"
    (.tail _ (.tail _ (.tail _ (.tail _ (.tail _ (.tail _ (.tail _ (.tail _ (.head _)))))))))

/-- When the loop of `findUpstreamIDPConfig` returns a provider, it is one of the list
and has the requested name. -/
theorem findUpstreamIDPConfig_loop_some (upstreamName : String)
    (l : List (UpstreamOIDCIdentityProviderI T)) (p : UpstreamOIDCIdentityProviderI T)
    (h : findUpstreamIDPConfig.loop upstreamName l = some p) :
    p ∈ l ∧ p.GetName = upstreamName := by
  induction l with
  | nil => simp [findUpstreamIDPConfig.loop] at h
  | cons q rest ih =>
    by_cases hq : q.GetName = upstreamName
    · simp [findUpstreamIDPConfig.loop, hq] at h
      subst h
      exact ⟨List.mem_cons_self _ _, hq⟩
    · simp [findUpstreamIDPConfig.loop, hq] at h
      exact ⟨List.mem_cons_of_mem _ (ih h).1, (ih h).2⟩

/-- The run of a request that the handler serves without error: every step succeeded,
and the trace is the full sequence of calls. -/
theorem NewHandler_ok_run (pk : Packages T)
    (upstreamIDPs : UpstreamOIDCIdentityProvidersLister T) (oauthHelper : OAuth2Provider T)
    (stateDecoder cookieDecoder : T.Decoder) (redirectURI : String) (r : Request)
    (h : (NewHandler pk upstreamIDPs oauthHelper stateDecoder cookieDecoder redirectURI r).result
      = .ok ()) :
    ∃ csrf st idp params requested token subject username groups custom responder,
          r.Method = http.MethodGet
          ∧ pk.ReadStateParamAndValidateCSRFCookie r cookieDecoder stateDecoder = .ok (csrf, st)
          ∧ authcode r ≠ ""
          ∧ idp ∈ upstreamIDPs.GetOIDCIdentityProviders
          ∧ idp.GetName = st.UpstreamName
          ∧ findUpstreamIDPConfig st.UpstreamName upstreamIDPs = some idp
          ∧ pk.ParseQuery st.AuthParams = .ok params
          ∧ oauthHelper.NewAuthorizeRequest { Form := params } = .ok requested
          ∧ idp.ExchangeAuthcodeAndValidateTokens (authcode r) st.PKCECode st.Nonce redirectURI
              = .ok token
          ∧ pk.GetDownstreamIdentityFromUpstreamIDToken idp (pk.IDTokenClaims token)
              = .ok (subject, username, groups)
          ∧ pk.MakeDownstreamOIDCCustomSessionData idp token = .ok custom
          ∧ oauthHelper.NewAuthorizeResponse (pk.GrantScopesIfRequested requested)
              (pk.MakeDownstreamSession subject username groups custom) = .ok responder
          ∧ (NewHandler pk upstreamIDPs oauthHelper stateDecoder cookieDecoder redirectURI r).trace
            = [.ReadStateParamAndValidateCSRFCookie r cookieDecoder stateDecoder (.ok (csrf, st)),
               .GetOIDCIdentityProviders (upstreamIDPs.GetOIDCIdentityProviders.map (·.GetName)),
               .NewAuthorizeRequest { Form := params } (.ok requested),
               .GrantScopesIfRequested requested,
               .ExchangeAuthcodeAndValidateTokens idp.GetName (authcode r) st.PKCECode st.Nonce
                 redirectURI (.ok token),
               .GetDownstreamIdentityFromUpstreamIDToken idp.GetName (pk.IDTokenClaims token)
                 (.ok (subject, username, groups)),
               .MakeDownstreamOIDCCustomSessionData idp.GetName token (.ok custom),
               .MakeDownstreamSession subject username groups custom,
               .NewAuthorizeResponse (pk.GrantScopesIfRequested requested)
                 (pk.MakeDownstreamSession subject username groups custom) (.ok responder),
               .WriteAuthorizeResponse (pk.GrantScopesIfRequested requested) responder] := by
  by_cases hm : r.Method = http.MethodGet
  swap
  · simp [NewHandler, validateRequest, hm] at h
  cases hs : pk.ReadStateParamAndValidateCSRFCookie r cookieDecoder stateDecoder with
  | error e => simp [NewHandler, validateRequest, hm, hs] at h
  | ok cs =>
  obtain ⟨csrf, st⟩ := cs
  by_cases hc : authcode r = ""
  · simp [NewHandler, validateRequest, hm, hs, hc] at h
  cases hf : findUpstreamIDPConfig st.UpstreamName upstreamIDPs with
  | none => simp [NewHandler, validateRequest, hm, hs, hc, hf] at h
  | some idp =>
  cases hq : pk.ParseQuery st.AuthParams with
  | error e => simp [NewHandler, validateRequest, hm, hs, hc, hf, hq] at h
  | ok params =>
  cases hn : oauthHelper.NewAuthorizeRequest { Form := params } with
  | error e => simp [NewHandler, validateRequest, hm, hs, hc, hf, hq, hn] at h
  | ok requested =>
  cases he : idp.ExchangeAuthcodeAndValidateTokens (authcode r) st.PKCECode st.Nonce redirectURI with
  | error e => simp [NewHandler, validateRequest, hm, hs, hc, hf, hq, hn, he] at h
  | ok token =>
  cases hi : pk.GetDownstreamIdentityFromUpstreamIDToken idp (pk.IDTokenClaims token) with
  | error e => simp [NewHandler, validateRequest, hm, hs, hc, hf, hq, hn, he, hi] at h
  | ok identity =>
  obtain ⟨subject, username, groups⟩ := identity
  cases hcu : pk.MakeDownstreamOIDCCustomSessionData idp token with
  | error e => simp [NewHandler, validateRequest, hm, hs, hc, hf, hq, hn, he, hi, hcu] at h
  | ok custom =>
  cases hr : oauthHelper.NewAuthorizeResponse (pk.GrantScopesIfRequested requested)
      (pk.MakeDownstreamSession subject username groups custom) with
  | error e => simp [NewHandler, validateRequest, hm, hs, hc, hf, hq, hn, he, hi, hcu, hr] at h
  | ok responder =>
  have hmem := findUpstreamIDPConfig_loop_some _ _ _ hf
  refine ⟨csrf, st, idp, params, requested, token, subject, username, groups, custom, responder,
    hm, by first | exact hs | rfl, hc, hmem.1, hmem.2, hf, hq, hn, he, hi, hcu, hr, ?_⟩
  simp [NewHandler, validateRequest, hm, hs, hc, hf, hq, hn, he, hi, hcu, hr]

/-- C11: the callback handler returns no error exactly when the method is GET, the
state/CSRF validation succeeds, the code is not empty, the OIDC list has a provider of
the state's UpstreamName, the state's AuthParams parse, NewAuthorizeRequest accepts
them, the upstream token exchange succeeds, the identity projection and the custom
session data succeed, and NewAuthorizeResponse succeeds; and then the run has exactly
one WriteAuthorizeResponse call, on the requester that NewAuthorizeRequest returned
(as GrantScopesIfRequested left it) and the responder that NewAuthorizeResponse
returned. -/
theorem NewHandler_ok_iff (pk : Packages T)
    (upstreamIDPs : UpstreamOIDCIdentityProvidersLister T) (oauthHelper : OAuth2Provider T)
    (stateDecoder cookieDecoder : T.Decoder) (redirectURI : String) (r : Request) :
    ((NewHandler pk upstreamIDPs oauthHelper stateDecoder cookieDecoder redirectURI r).result
        = .ok ()
      ↔ ∃ csrf st idp params requested token subject username groups custom responder,
          r.Method = http.MethodGet
          ∧ pk.ReadStateParamAndValidateCSRFCookie r cookieDecoder stateDecoder = .ok (csrf, st)
          ∧ authcode r ≠ ""
          ∧ idp ∈ upstreamIDPs.GetOIDCIdentityProviders
          ∧ idp.GetName = st.UpstreamName
          ∧ findUpstreamIDPConfig st.UpstreamName upstreamIDPs = some idp
          ∧ pk.ParseQuery st.AuthParams = .ok params
          ∧ oauthHelper.NewAuthorizeRequest { Form := params } = .ok requested
          ∧ idp.ExchangeAuthcodeAndValidateTokens (authcode r) st.PKCECode st.Nonce redirectURI
              = .ok token
          ∧ pk.GetDownstreamIdentityFromUpstreamIDToken idp (pk.IDTokenClaims token)
              = .ok (subject, username, groups)
          ∧ pk.MakeDownstreamOIDCCustomSessionData idp token = .ok custom
          ∧ oauthHelper.NewAuthorizeResponse (pk.GrantScopesIfRequested requested)
              (pk.MakeDownstreamSession subject username groups custom) = .ok responder)
      ∧ ((NewHandler pk upstreamIDPs oauthHelper stateDecoder cookieDecoder redirectURI r).result
          = .ok ()
        → ∃ req requested session responder,
            Event.NewAuthorizeRequest req (.ok requested) ∈
              (NewHandler pk upstreamIDPs oauthHelper stateDecoder cookieDecoder redirectURI r).trace
            ∧ Event.NewAuthorizeResponse (pk.GrantScopesIfRequested requested) session
                (.ok responder) ∈
              (NewHandler pk upstreamIDPs oauthHelper stateDecoder cookieDecoder redirectURI r).trace
            ∧ (NewHandler pk upstreamIDPs oauthHelper stateDecoder cookieDecoder redirectURI
                  r).trace.filter (fun ev => ev.call = Call.WriteAuthorizeResponse)
                = [Event.WriteAuthorizeResponse (pk.GrantScopesIfRequested requested) responder]) := by
  refine ⟨⟨fun h => ?_, ?_⟩, fun h => ?_⟩
  · obtain ⟨csrf, st, idp, params, requested, token, subject, username, groups, custom,
      responder, hm, hs, hc, hin, hname, hf, hq, hn, he, hi, hcu, hr, -⟩ :=
      NewHandler_ok_run pk upstreamIDPs oauthHelper stateDecoder cookieDecoder redirectURI r h
    exact ⟨csrf, st, idp, params, requested, token, subject, username, groups, custom,
      responder, hm, hs, hc, hin, hname, hf, hq, hn, he, hi, hcu, hr⟩
  · rintro ⟨csrf, st, idp, params, requested, token, subject, username, groups, custom,
      responder, hm, hs, hc, -, -, hf, hq, hn, he, hi, hcu, hr⟩
    simp [NewHandler, validateRequest, hm, hs, hc, hf, hq, hn, he, hi, hcu, hr]
  · obtain ⟨csrf, st, idp, params, requested, token, subject, username, groups, custom,
      responder, -, -, -, -, -, -, -, -, -, -, -, -, ht⟩ :=
      NewHandler_ok_run pk upstreamIDPs oauthHelper stateDecoder cookieDecoder redirectURI r h
    refine ⟨{ Form := params }, requested,
      pk.MakeDownstreamSession subject username groups custom, responder, ?_, ?_, ?_⟩
    · rw [ht]; simp
    · rw [ht]; simp
    · rw [ht]; simp [List.filter, Event.call]

/-- Witness of C11: the happy callback. -/
theorem NewHandler_ok_iff_witness :
    ∃ req requested session responder,
      Event.NewAuthorizeRequest req (.ok requested) ∈
        (NewHandler pk0 idps0 oauth0 () () redirectURI (callback "happy-state" "some-code")).trace
      ∧ Event.NewAuthorizeResponse (pk0.GrantScopesIfRequested requested) session
          (.ok responder) ∈
        (NewHandler pk0 idps0 oauth0 () () redirectURI (callback "happy-state" "some-code")).trace
      ∧ (NewHandler pk0 idps0 oauth0 () () redirectURI
            (callback "happy-state" "some-code")).trace.filter
            (fun ev => ev.call = Call.WriteAuthorizeResponse)
          = [Event.WriteAuthorizeResponse (pk0.GrantScopesIfRequested requested) responder] :=
  (NewHandler_ok_iff pk0 idps0 oauth0 () () redirectURI (callback "happy-state" "some-code")).2 rfl

end

end Callback

/-! ## Properties of the login handler and of the session builder -/

namespace Login

open Callback fosite psession Login.Example

/-- Scanning a list by name returns an IdP of the list that has the name. -/
theorem findByName_some (name : String) (l : List provider.UpstreamLDAPIdentityProviderI)
    (p : provider.UpstreamLDAPIdentityProviderI) (h : findByName name l = some p) :
    p ∈ l ∧ p.GetName = name := by
  induction l with
  | nil => simp [findByName] at h
  | cons q rest ih =>
    by_cases hq : q.GetName = name
    · simp [findByName, hq] at h
      subst h
      exact ⟨List.mem_cons_self _ _, hq⟩
    · simp [findByName, hq] at h
      exact ⟨List.mem_cons_of_mem _ (ih h).1, (ih h).2⟩

/-- The IdP that the lookup returns has the requested name and comes from the list of
the requested type, `ldap` or `activedirectory`. -/
theorem FindUpstreamIDPByNameAndType_some (idps : UpstreamIdentityProvidersLister)
    (upstreamName upstreamType : String) (idp : provider.UpstreamLDAPIdentityProviderI)
    (idpType : ProviderType)
    (h : FindUpstreamIDPByNameAndType idps upstreamName upstreamType = some (idp, idpType)) :
    idp.GetName = upstreamName
      ∧ ((upstreamType = "ldap" ∧ idpType = ProviderType.ldap
            ∧ idp ∈ idps.GetLDAPIdentityProviders)
        ∨ (upstreamType = "activedirectory" ∧ idpType = ProviderType.activedirectory
            ∧ idp ∈ idps.GetActiveDirectoryIdentityProviders)) := by
  unfold FindUpstreamIDPByNameAndType at h
  split at h
  · rename_i ht
    simp only [Option.map_eq_some'] at h
    obtain ⟨p, hp, heq⟩ := h
    simp only [Prod.mk.injEq] at heq
    obtain ⟨rfl, rfl⟩ := heq
    have := findByName_some _ _ _ hp
    exact ⟨this.2, .inl ⟨ht, rfl, this.1⟩⟩
  · split at h
    · rename_i ht
      simp only [Option.map_eq_some'] at h
      obtain ⟨p, hp, heq⟩ := h
      simp only [Prod.mk.injEq] at heq
      obtain ⟨rfl, rfl⟩ := heq
      have := findByName_some _ _ _ hp
      exact ⟨this.2, .inr ⟨ht, rfl, this.1⟩⟩
    · simp at h

/-- C12: when the IdP's Authenticate is called (so with a non-empty form username and
password) and returns not authenticated and no error, the handler returns no error and
responds 303 with Location exactly `<issuer><login path>?err=login_error&state=`
followed by the encoded state it was passed, with an empty body, and nothing is
written to the OAuth2 collaborator's storage. -/
theorem NewPostHandler_bad_credentials (loginPath issuer : String)
    (idps : UpstreamIdentityProvidersLister) (oauth : OAuth2Provider) (r : Request)
    (encodedState : String) (st : UpstreamStateParamData)
    (idp username password : String) (resp : authenticators.Response)
    (h : Event.AuthenticateUser idp username password (resp, false, none) ∈
      (NewPostHandler loginPath issuer idps oauth r encodedState st).trace) :
    (NewPostHandler loginPath issuer idps oauth r encodedState st).result
        = .ok { Code := 303
                Header := [("Content-Type", ["text/html; charset=utf-8"]),
                           ("Location", [issuer ++ loginPath ++ "?err=login_error&state="
                                           ++ encodedState])]
                Body := "" }
      ∧ (NewPostHandler loginPath issuer idps oauth r encodedState st).storageWrites = []
      ∧ username = r.PostFormValue "username" ∧ username ≠ ""
      ∧ password = r.PostFormValue "password" ∧ password ≠ "" := by
  revert h
  unfold NewPostHandler
  simp only [Outcome.storageWrites]
  repeat' split
  all_goals simp_all [Event.stored, RedirectToLoginPage, ShowBadUserPassErr, ShowInternalError,
    StatusSeeOther, String.append_assoc]
  all_goals
    intro _ _ _ hauth
    simp [← hauth] at *

/-- Witness of C12: the test's bad password login. -/
theorem NewPostHandler_bad_credentials_witness :
    (NewPostHandler PinnipedLoginPath downstreamIssuer idpsLDAP oauthHelper
        (post "some-ldap-user" "wrong!") happyEncodedUpstreamState happyLDAPDecodedState).result
        = .ok { Code := 303
                Header := [("Content-Type", ["text/html; charset=utf-8"]),
                           ("Location", ["https://my-downstream-issuer.com/path" ++ "/login"
                              ++ "?err=login_error&state=" ++ "fake-encoded-state-param-value"])]
                Body := "" }
      ∧ (NewPostHandler PinnipedLoginPath downstreamIssuer idpsLDAP oauthHelper
          (post "some-ldap-user" "wrong!") happyEncodedUpstreamState
          happyLDAPDecodedState).storageWrites = [] :=
  have h := NewPostHandler_bad_credentials PinnipedLoginPath downstreamIssuer idpsLDAP oauthHelper
    (post "some-ldap-user" "wrong!") happyEncodedUpstreamState happyLDAPDecodedState
    "some-ldap-idp" "some-ldap-user" "wrong!" noResponse (.tail _ (.tail _ (.head _)))
  ⟨h.1, h.2.1⟩

/-- C13: when the form username or the form password is empty, the IdP's Authenticate
is not called, and the handler (having found the IdP and had the state's auth params
accepted) redirects to the login page with err=login_error and the encoded state it
was passed; whatever the authenticator would do on empty input, no other response,
so no internal_error redirect, is written. -/
theorem NewPostHandler_blank_credentials (loginPath issuer : String)
    (idps : UpstreamIdentityProvidersLister) (oauth : OAuth2Provider) (r : Request)
    (encodedState : String) (st : UpstreamStateParamData)
    (hb : r.PostFormValue "username" = "" ∨ r.PostFormValue "password" = "") :
    Call.AuthenticateUser ∉ (NewPostHandler loginPath issuer idps oauth r encodedState st).calls
      ∧ (∀ idp idpType requested,
          FindUpstreamIDPByNameAndType idps st.UpstreamName st.UpstreamType = some (idp, idpType) →
          oauth.NewAuthorizeRequest st.AuthParams = .ok requested →
          (NewPostHandler loginPath issuer idps oauth r encodedState st).result
            = .ok { Code := 303
                    Header := [("Content-Type", ["text/html; charset=utf-8"]),
                               ("Location", [issuer ++ loginPath ++ "?err=login_error&state="
                                               ++ encodedState])]
                    Body := "" })
      ∧ (∀ response,
          (NewPostHandler loginPath issuer idps oauth r encodedState st).result = .ok response →
          response = { Code := 303
                       Header := [("Content-Type", ["text/html; charset=utf-8"]),
                                  ("Location", [issuer ++ loginPath ++ "?err=login_error&state="
                                                  ++ encodedState])]
                       Body := "" }) := by
  unfold NewPostHandler
  simp only [Outcome.calls]
  repeat' split
  all_goals simp_all [Event.call, RedirectToLoginPage, ShowBadUserPassErr, StatusSeeOther,
    String.append_assoc]

/-- Witness of C13: the test's blank password login, with the test's authenticator,
which fails on an empty password. -/
theorem NewPostHandler_blank_credentials_witness :
    Call.AuthenticateUser ∉
        (NewPostHandler PinnipedLoginPath downstreamIssuer idpsLDAP oauthHelper
          (post "some-ldap-user" "") happyEncodedUpstreamState happyLDAPDecodedState).calls
      ∧ (NewPostHandler PinnipedLoginPath downstreamIssuer idpsLDAP oauthHelper
          (post "some-ldap-user" "") happyEncodedUpstreamState happyLDAPDecodedState).result
        = .ok { Code := 303
                Header := [("Content-Type", ["text/html; charset=utf-8"]),
                           ("Location", ["https://my-downstream-issuer.com/path" ++ "/login"
                              ++ "?err=login_error&state=" ++ "fake-encoded-state-param-value"])]
                Body := "" } :=
  have h := NewPostHandler_blank_credentials PinnipedLoginPath downstreamIssuer idpsLDAP
    oauthHelper (post "some-ldap-user" "") happyEncodedUpstreamState happyLDAPDecodedState
    (.inr rfl)
  ⟨h.1, h.2.1 upstreamLDAPIdentityProvider .ldap happyRequester rfl rfl⟩

/-- C14: two requests with an empty form body give the same run, whatever their URL
queries are, so whatever `username` and `password` the queries carry; and the response
of such a request (the IdP found and the state's auth params accepted) is the
login_error redirect. -/
theorem NewPostHandler_query_credentials_ignored (loginPath issuer : String)
    (idps : UpstreamIdentityProvidersLister) (oauth : OAuth2Provider) (r r' : Request)
    (encodedState : String) (st : UpstreamStateParamData)
    (hb : r.PostForm = []) (hb' : r'.PostForm = []) :
    NewPostHandler loginPath issuer idps oauth r encodedState st
        = NewPostHandler loginPath issuer idps oauth r' encodedState st
      ∧ Call.AuthenticateUser ∉ (NewPostHandler loginPath issuer idps oauth r encodedState st).calls
      ∧ (∀ idp idpType requested,
          FindUpstreamIDPByNameAndType idps st.UpstreamName st.UpstreamType = some (idp, idpType) →
          oauth.NewAuthorizeRequest st.AuthParams = .ok requested →
          (NewPostHandler loginPath issuer idps oauth r encodedState st).result
            = .ok { Code := 303
                    Header := [("Content-Type", ["text/html; charset=utf-8"]),
                               ("Location", [issuer ++ loginPath ++ "?err=login_error&state="
                                               ++ encodedState])]
                    Body := "" }) := by
  have hu : r.PostFormValue "username" = "" := by simp [Request.PostFormValue, Values.Get, hb]
  have hu' : r'.PostFormValue "username" = "" := by simp [Request.PostFormValue, Values.Get, hb']
  refine ⟨?_, ?_, ?_⟩
  · simp [NewPostHandler, hu, hu']
  · unfold NewPostHandler
    simp only [Outcome.calls]
    repeat' split
    all_goals simp_all [Event.call]
  · intro idp idpType requested hf hn
    simp [NewPostHandler, hf, hn, hu, RedirectToLoginPage, ShowBadUserPassErr, StatusSeeOther,
      String.append_assoc]

/-- Witness of C14: the test's request with the right credentials in the URL query and
an empty body, against the same request with no credentials at all. -/
theorem NewPostHandler_query_credentials_ignored_witness :
    NewPostHandler PinnipedLoginPath downstreamIssuer idpsLDAP oauthHelper
        (postQuery "some-ldap-user" "some-ldap-password") happyEncodedUpstreamState
        happyLDAPDecodedState
      = NewPostHandler PinnipedLoginPath downstreamIssuer idpsLDAP oauthHelper
        {} happyEncodedUpstreamState happyLDAPDecodedState :=
  (NewPostHandler_query_credentials_ignored PinnipedLoginPath downstreamIssuer idpsLDAP oauthHelper
    (postQuery "some-ldap-user" "some-ldap-password") {} happyEncodedUpstreamState
    happyLDAPDecodedState rfl rfl).1

/-- C15: when the IdP's Authenticate is called (so with non-empty form credentials) and
returns an error, the handler returns no error itself and responds 303 to the login
page with err=internal_error and the encoded state it was passed, and nothing is
written to the OAuth2 collaborator's storage. -/
theorem NewPostHandler_upstream_failure (loginPath issuer : String)
    (idps : UpstreamIdentityProvidersLister) (oauth : OAuth2Provider) (r : Request)
    (encodedState : String) (st : UpstreamStateParamData)
    (idp username password err : String) (resp : authenticators.Response) (authenticated : Bool)
    (h : Event.AuthenticateUser idp username password (resp, authenticated, some err) ∈
      (NewPostHandler loginPath issuer idps oauth r encodedState st).trace) :
    (NewPostHandler loginPath issuer idps oauth r encodedState st).result
        = .ok { Code := 303
                Header := [("Content-Type", ["text/html; charset=utf-8"]),
                           ("Location", [issuer ++ loginPath ++ "?err=internal_error&state="
                                           ++ encodedState])]
                Body := "" }
      ∧ (NewPostHandler loginPath issuer idps oauth r encodedState st).storageWrites = []
      ∧ username ≠ "" ∧ password ≠ "" := by
  revert h
  unfold NewPostHandler
  simp only [Outcome.storageWrites]
  repeat' split
  all_goals simp_all [Event.stored, RedirectToLoginPage, ShowBadUserPassErr, ShowInternalError,
    StatusSeeOther, String.append_assoc]
  all_goals
    intro _ _ _ hauth
    simp [← hauth] at *

/-- Witness of C15: the test's login against the IdP whose authentication fails. -/
theorem NewPostHandler_upstream_failure_witness :
    (NewPostHandler PinnipedLoginPath downstreamIssuer idpsErroringLDAP oauthHelper
        (post "some-ldap-user" "some-ldap-password") happyEncodedUpstreamState
        happyLDAPDecodedState).result
        = .ok { Code := 303
                Header := [("Content-Type", ["text/html; charset=utf-8"]),
                           ("Location", ["https://my-downstream-issuer.com/path" ++ "/login"
                              ++ "?err=internal_error&state=" ++ "fake-encoded-state-param-value"])]
                Body := "" }
      ∧ (NewPostHandler PinnipedLoginPath downstreamIssuer idpsErroringLDAP oauthHelper
          (post "some-ldap-user" "some-ldap-password") happyEncodedUpstreamState
          happyLDAPDecodedState).storageWrites = [] :=
  have h := NewPostHandler_upstream_failure PinnipedLoginPath downstreamIssuer idpsErroringLDAP
    oauthHelper (post "some-ldap-user" "some-ldap-password") happyEncodedUpstreamState
    happyLDAPDecodedState "some-ldap-idp" "some-ldap-user" "some-ldap-password"
    "some ldap upstream auth error" noResponse false (.tail _ (.tail _ (.head _)))
  ⟨h.1, h.2.1⟩

/-- C17: when the OAuth2 collaborator's authorize parser rejects the state's AuthParams,
the handler returns the error "error using state downstream auth params", the IdP's
Authenticate is not called and nothing is written to the collaborator's storage. -/
theorem NewPostHandler_reconstruct_failure (loginPath issuer : String)
    (idps : UpstreamIdentityProvidersLister) (oauth : OAuth2Provider) (r : Request)
    (encodedState : String) (st : UpstreamStateParamData) (authParams err : String)
    (h : Event.NewAuthorizeRequest authParams (.error err) ∈
      (NewPostHandler loginPath issuer idps oauth r encodedState st).trace) :
    (NewPostHandler loginPath issuer idps oauth r encodedState st).result
        = .error (.httpErr 400 "error using state downstream auth params" none)
      ∧ authParams = st.AuthParams
      ∧ Call.AuthenticateUser ∉ (NewPostHandler loginPath issuer idps oauth r encodedState st).calls
      ∧ Call.NewAuthorizeResponse ∉
          (NewPostHandler loginPath issuer idps oauth r encodedState st).calls
      ∧ (NewPostHandler loginPath issuer idps oauth r encodedState st).storageWrites = [] := by
  revert h
  unfold NewPostHandler
  simp only [Outcome.storageWrites, Outcome.calls]
  repeat' split
  all_goals simp_all [Event.stored, Event.call, httperr.New, http.StatusBadRequest]

/-- Witness of C17: the test's state whose auth params lack the client id. -/
theorem NewPostHandler_reconstruct_failure_witness :
    (NewPostHandler PinnipedLoginPath downstreamIssuer idpsLDAP oauthHelper
        (post "some-ldap-user" "some-ldap-password") happyEncodedUpstreamState
        missingClientDecodedState).result
        = .error (.httpErr 400 "error using state downstream auth params" none)
      ∧ (NewPostHandler PinnipedLoginPath downstreamIssuer idpsLDAP oauthHelper
          (post "some-ldap-user" "some-ldap-password") happyEncodedUpstreamState
          missingClientDecodedState).storageWrites = [] :=
  have h := NewPostHandler_reconstruct_failure PinnipedLoginPath downstreamIssuer idpsLDAP
    oauthHelper (post "some-ldap-user" "some-ldap-password") happyEncodedUpstreamState
    missingClientDecodedState missingClientDecodedState.AuthParams "invalid_client" (.head _)
  ⟨h.1, h.2.2.2.2⟩

/-- C18: when the IdP's Authenticate succeeds, the run hands exactly one session to the
OAuth2 collaborator; its subject is the IdP's URL followed by "&sub=" followed by the
returned User.UID, its username is the returned User.Name (not the name typed in the
form), and its groups are the returned User.Groups, in the same order. -/
theorem NewPostHandler_identity_projection (loginPath issuer : String)
    (idps : UpstreamIdentityProvidersLister) (oauth : OAuth2Provider) (r : Request)
    (encodedState : String) (st : UpstreamStateParamData)
    (idp : provider.UpstreamLDAPIdentityProviderI) (idpType : ProviderType)
    (name username password : String) (resp : authenticators.Response)
    (hf : FindUpstreamIDPByNameAndType idps st.UpstreamName st.UpstreamType = some (idp, idpType))
    (h : Event.AuthenticateUser name username password (resp, true, none) ∈
      (NewPostHandler loginPath issuer idps oauth r encodedState st).trace) :
    ∃ requester custom stored result,
      (NewPostHandler loginPath issuer idps oauth r encodedState st).trace.filter
          (fun ev => ev.call = Call.NewAuthorizeResponse)
        = [Event.NewAuthorizeResponse requester
            { Subject := idp.GetURL ++ "&sub=" ++ resp.User.UID
              Username := resp.User.Name
              Groups := resp.User.Groups
              Custom := custom } stored result] := by
  revert h
  unfold NewPostHandler
  simp only [hf]
  repeat' split
  all_goals simp_all [Event.call, List.filter, downstreamsession.MakeDownstreamSession,
    downstreamsession.DownstreamSubjectFromUpstreamLDAP]
  all_goals
    intro _ _ _ hauth
    simp [← hauth] at *

/-- Witness of C18: the test's happy LDAP login. -/
theorem NewPostHandler_identity_projection_witness :
    ∃ requester custom stored result,
      (NewPostHandler PinnipedLoginPath downstreamIssuer idpsLDAP oauthHelper
          (post "some-ldap-user" "some-ldap-password") happyEncodedUpstreamState
          happyLDAPDecodedState).trace.filter (fun ev => ev.call = Call.NewAuthorizeResponse)
        = [Event.NewAuthorizeResponse requester
            { Subject := upstreamLDAPIdentityProvider.GetURL ++ "&sub="
                ++ happyAuthenticateResponse.User.UID
              Username := happyAuthenticateResponse.User.Name
              Groups := happyAuthenticateResponse.User.Groups
              Custom := custom } stored result] :=
  NewPostHandler_identity_projection PinnipedLoginPath downstreamIssuer idpsLDAP oauthHelper
    (post "some-ldap-user" "some-ldap-password") happyEncodedUpstreamState happyLDAPDecodedState
    upstreamLDAPIdentityProvider .ldap "some-ldap-idp" "some-ldap-user" "some-ldap-password"
    happyAuthenticateResponse rfl (.tail _ (.tail _ (.head _)))

/-- C19: a CustomSessionData built for an OIDC login has exactly its OIDC variant
populated and the given provider UID and name; and every session that a login run
hands to the OAuth2 collaborator has a CustomSessionData with exactly one variant
populated, the one named by its ProviderType: LDAP alone for a state of type `ldap`,
ActiveDirectory alone for a state of type `activedirectory`, holding the DN and the
extra refresh attributes of the Authenticate response, with the resource UID and name
of the IdP that the lookup resolved. -/
theorem CustomSessionData_one_variant (loginPath issuer : String)
    (idps : UpstreamIdentityProvidersLister) (oauth : OAuth2Provider) (r : Request)
    (encodedState : String) (st : UpstreamStateParamData) :
    (∀ providerUID providerName oidc,
        (downstreamsession.MakeDownstreamOIDCCustomSessionData providerUID providerName
            oidc).populated
          = [(downstreamsession.MakeDownstreamOIDCCustomSessionData providerUID providerName
              oidc).ProviderType]
        ∧ downstreamsession.MakeDownstreamOIDCCustomSessionData providerUID providerName oidc
          = { ProviderUID := providerUID, ProviderName := providerName,
              ProviderType := .oidc, OIDC := some oidc, LDAP := none, ActiveDirectory := none })
      ∧ (∀ requester session stored result,
          Event.NewAuthorizeResponse requester session stored result ∈
            (NewPostHandler loginPath issuer idps oauth r encodedState st).trace →
          session.Custom.populated = [session.Custom.ProviderType]
          ∧ ∃ idp idpType name username password resp,
              FindUpstreamIDPByNameAndType idps st.UpstreamName st.UpstreamType
                = some (idp, idpType)
              ∧ Event.AuthenticateUser name username password (resp, true, none) ∈
                  (NewPostHandler loginPath issuer idps oauth r encodedState st).trace
              ∧ session.Custom.ProviderUID = idp.GetResourceUID
              ∧ session.Custom.ProviderName = idp.GetName
              ∧ session.Custom.ProviderType = idpType
              ∧ (st.UpstreamType = "ldap" →
                  session.Custom
                    = { ProviderUID := idp.GetResourceUID, ProviderName := idp.GetName,
                        ProviderType := .ldap, OIDC := none,
                        LDAP := some ⟨resp.DN, resp.ExtraRefreshAttributes⟩,
                        ActiveDirectory := none })
              ∧ (st.UpstreamType = "activedirectory" →
                  session.Custom
                    = { ProviderUID := idp.GetResourceUID, ProviderName := idp.GetName,
                        ProviderType := .activedirectory, OIDC := none, LDAP := none,
                        ActiveDirectory := some ⟨resp.DN, resp.ExtraRefreshAttributes⟩ })) := by
  refine ⟨fun uid name oidc => ⟨rfl, rfl⟩, ?_⟩
  intro requester session stored result h
  cases hf : FindUpstreamIDPByNameAndType idps st.UpstreamName st.UpstreamType with
  | none => simp [NewPostHandler, hf] at h
  | some found =>
  obtain ⟨idp, idpType⟩ := found
  have hty := (FindUpstreamIDPByNameAndType_some idps _ _ idp idpType hf).2
  cases hn : oauth.NewAuthorizeRequest st.AuthParams with
  | error e => simp [NewPostHandler, hf, hn] at h
  | ok requested =>
  by_cases hb : r.PostFormValue "username" = "" ∨ r.PostFormValue "password" = ""
  · simp [NewPostHandler, hf, hn, hb] at h
  rcases ha : idp.AuthenticateUser (r.PostFormValue "username") (r.PostFormValue "password")
    with ⟨resp, authenticated, err⟩
  cases err with
  | some e => simp [NewPostHandler, hf, hn, hb, ha] at h
  | none =>
  cases authenticated with
  | false => simp [NewPostHandler, hf, hn, hb, ha] at h
  | true =>
  have hs : session = downstreamsession.MakeDownstreamSession
      (downstreamsession.DownstreamSubjectFromUpstreamLDAP idp resp) resp.User.Name
      resp.User.Groups (downstreamsession.MakeDownstreamLDAPOrADCustomSessionData idp idpType resp) := by
    simp only [NewPostHandler, hf, hn, hb, ha, if_false, Bool.true_eq_false] at h
    split at h
    all_goals
      simp only [List.cons_append, List.nil_append, List.mem_cons, List.mem_singleton,
        Event.NewAuthorizeResponse.injEq, List.not_mem_nil, or_false, false_or, reduceCtorEq] at h
      exact h.2.1
  have hev : Event.AuthenticateUser idp.GetName (r.PostFormValue "username")
      (r.PostFormValue "password") (resp, true, none) ∈
      (NewPostHandler loginPath issuer idps oauth r encodedState st).trace := by
    simp only [NewPostHandler, hf, hn, hb, ha, if_false, Bool.true_eq_false]
    split <;> simp
  subst hs
  refine ⟨?_, idp, idpType, _, _, _, resp, rfl, hev, rfl, rfl, rfl, ?_, ?_⟩
  · rcases hty with ⟨-, rfl, -⟩ | ⟨-, rfl, -⟩ <;> rfl
  · intro ht
    rcases hty with ⟨-, rfl, -⟩ | ⟨ht', -, -⟩
    · rfl
    · rw [ht] at ht'; exact absurd ht' (by decide)
  · intro ht
    rcases hty with ⟨ht', -, -⟩ | ⟨-, rfl, -⟩
    · rw [ht] at ht'; exact absurd ht' (by decide)
    · rfl

/-- Witness of C19: the session of the test's happy LDAP login carries the custom
session data that the test expects. -/
theorem CustomSessionData_one_variant_witness :
    expectedHappyLDAPUpstreamCustomSession.populated = [ProviderType.ldap]
      ∧ ∃ idp idpType name username password resp,
          FindUpstreamIDPByNameAndType idpsLDAP happyLDAPDecodedState.UpstreamName
              happyLDAPDecodedState.UpstreamType = some (idp, idpType)
          ∧ Event.AuthenticateUser name username password (resp, true, none) ∈
              (NewPostHandler PinnipedLoginPath downstreamIssuer idpsLDAP oauthHelper
                (post "some-ldap-user" "some-ldap-password") happyEncodedUpstreamState
                happyLDAPDecodedState).trace
          ∧ expectedHappyLDAPUpstreamCustomSession.ProviderUID = idp.GetResourceUID
          ∧ expectedHappyLDAPUpstreamCustomSession.ProviderName = idp.GetName
          ∧ expectedHappyLDAPUpstreamCustomSession.ProviderType = idpType
          ∧ (happyLDAPDecodedState.UpstreamType = "ldap" →
              expectedHappyLDAPUpstreamCustomSession
                = { ProviderUID := idp.GetResourceUID, ProviderName := idp.GetName,
                    ProviderType := .ldap, OIDC := none,
                    LDAP := some ⟨resp.DN, resp.ExtraRefreshAttributes⟩,
                    ActiveDirectory := none })
          ∧ (happyLDAPDecodedState.UpstreamType = "activedirectory" →
              expectedHappyLDAPUpstreamCustomSession
                = { ProviderUID := idp.GetResourceUID, ProviderName := idp.GetName,
                    ProviderType := .activedirectory, OIDC := none, LDAP := none,
                    ActiveDirectory := some ⟨resp.DN, resp.ExtraRefreshAttributes⟩ }) :=
  (CustomSessionData_one_variant PinnipedLoginPath downstreamIssuer idpsLDAP oauthHelper
    (post "some-ldap-user" "some-ldap-password") happyEncodedUpstreamState
    happyLDAPDecodedState).2
    { happyRequester with GrantedScopes := ["openid"] }
    { Subject := upstreamLDAPURL ++ "&sub=" ++ "some-ldap-uid"
      Username := "some-mapped-ldap-username"
      Groups := ["group1", "group2", "group3"]
      Custom := expectedHappyLDAPUpstreamCustomSession }
    ["authorize-code", "pkce", "openid-connect"]
    (.ok ⟨"authcode-of-some-mapped-ldap-username"⟩)
    (.tail _ (.tail _ (.tail _ (.head _))))

end Login

namespace downstreamsession

open fosite

/-- Granting one scope if requested: the granted scopes afterwards are the ones granted
before and, if it was requested, that scope; the requested scopes are unchanged. -/
theorem GrantScopeIfRequested_spec (a : AuthorizeRequester) (scopeName : String) :
    (∀ s, s ∈ (GrantScopeIfRequested a scopeName).GrantedScopes
        ↔ s ∈ a.GrantedScopes ∨ (s ∈ a.RequestedScopes ∧ s = scopeName))
      ∧ (GrantScopeIfRequested a scopeName).RequestedScopes = a.RequestedScopes := by
  unfold GrantScopeIfRequested AuthorizeRequester.GrantScope
  by_cases hr : scopeName ∈ a.RequestedScopes
  · by_cases hg : scopeName ∈ a.GrantedScopes
    · simp only [hr, hg, if_true, and_true]
      intro s
      constructor
      · exact fun h => .inl h
      · rintro (h | ⟨-, rfl⟩)
        · exact h
        · exact hg
    · simp only [hr, hg, if_true, if_false, and_true, List.mem_append, List.mem_singleton]
      intro s
      constructor
      · rintro (h | rfl)
        · exact .inl h
        · exact .inr ⟨hr, rfl⟩
      · rintro (h | ⟨-, rfl⟩)
        · exact .inl h
        · exact .inr rfl
  · simp only [hr, if_false, and_true]
    intro s
    constructor
    · exact fun h => .inl h
    · rintro (h | ⟨h, rfl⟩)
      · exact h
      · exact absurd h hr

/-- C20: GrantScopesIfRequested marks as granted exactly the scopes among `openid`,
`offline_access` and `pinniped:request-audience` that were requested: the scopes
granted afterwards are the ones granted before and those of the three that are among
the requested scopes, and the requested scopes are unchanged.  So on a requester with
no scope granted yet, as the authorize parser returns it, the granted set is
requested ∩ {openid, offline_access, pinniped:request-audience}: requesting only
`email` grants nothing, requesting all three grants all three. -/
theorem GrantScopesIfRequested_policy (a : AuthorizeRequester) :
    (∀ s, s ∈ (GrantScopesIfRequested a).GrantedScopes
        ↔ s ∈ a.GrantedScopes
          ∨ (s ∈ a.RequestedScopes
              ∧ s ∈ ["openid", "offline_access", "pinniped:request-audience"]))
      ∧ (GrantScopesIfRequested a).RequestedScopes = a.RequestedScopes
      ∧ (a.GrantedScopes = [] → ∀ s, s ∈ (GrantScopesIfRequested a).GrantedScopes
          ↔ s ∈ a.RequestedScopes
              ∧ s ∈ ["openid", "offline_access", "pinniped:request-audience"])
      ∧ (GrantScopesIfRequested { RequestedScopes := ["email"] }).GrantedScopes = []
      ∧ (GrantScopesIfRequested
          { RequestedScopes := ["openid", "offline_access", "pinniped:request-audience"]
            }).GrantedScopes
          = ["openid", "offline_access", "pinniped:request-audience"] := by
  have h1 := GrantScopeIfRequested_spec a "openid"
  have h2 := GrantScopeIfRequested_spec (GrantScopeIfRequested a "openid") "offline_access"
  have h3 := GrantScopeIfRequested_spec
    (GrantScopeIfRequested (GrantScopeIfRequested a "openid") "offline_access")
    "pinniped:request-audience"
  have hmem : ∀ s, s ∈ (GrantScopesIfRequested a).GrantedScopes
      ↔ s ∈ a.GrantedScopes
        ∨ (s ∈ a.RequestedScopes
            ∧ s ∈ ["openid", "offline_access", "pinniped:request-audience"]) := by
    intro s
    unfold GrantScopesIfRequested
    rw [h3.1, h2.1, h1.1, h2.2, h1.2]
    simp only [List.mem_cons, List.mem_singleton, List.not_mem_nil, or_false]
    tauto
  refine ⟨hmem, ?_, ?_, by decide, by decide⟩
  · unfold GrantScopesIfRequested
    rw [h3.2, h2.2, h1.2]
  · intro hg s
    rw [hmem s, hg]
    simp

/-- Witness of C20: the requester of the test's login with all three scopes and
`email` requested. -/
theorem GrantScopesIfRequested_policy_witness :
    ∀ s, s ∈ (GrantScopesIfRequested
          { RequestedScopes := ["email", "openid", "offline_access",
              "pinniped:request-audience"] }).GrantedScopes
      ↔ s ∈ ["email", "openid", "offline_access", "pinniped:request-audience"]
          ∧ s ∈ ["openid", "offline_access", "pinniped:request-audience"] :=
  (GrantScopesIfRequested_policy
    { RequestedScopes := ["email", "openid", "offline_access",
        "pinniped:request-audience"] }).2.2.1 rfl

end downstreamsession

/-! ## More properties of the callback handler -/

namespace Callback

open Example

section

variable {T : Types}

/-- C25: `findUpstreamIDPConfig` returns nil exactly when no provider of the list
returned by GetOIDCIdentityProviders has a name equal to the requested name; and a
provider that it returns is an element of that list whose name is the requested name
(equality of strings, so case matters). -/
theorem findUpstreamIDPConfig_spec (upstreamName : String)
    (upstreamIDPs : UpstreamOIDCIdentityProvidersLister T) :
    (findUpstreamIDPConfig upstreamName upstreamIDPs = none
        ↔ ∀ p ∈ upstreamIDPs.GetOIDCIdentityProviders, p.GetName ≠ upstreamName)
      ∧ (∀ p, findUpstreamIDPConfig upstreamName upstreamIDPs = some p →
          p ∈ upstreamIDPs.GetOIDCIdentityProviders ∧ p.GetName = upstreamName) :=
  ⟨findUpstreamIDPConfig_loop_eq_none_iff upstreamName _,
   fun p h => findUpstreamIDPConfig_loop_some upstreamName _ p h⟩

/-- Witness of C25: a name that differs from the provider's name only in case is not
found. -/
theorem findUpstreamIDPConfig_spec_witness :
    findUpstreamIDPConfig "Some-OIDC-IdP" idps0 = none :=
  (findUpstreamIDPConfig_spec "Some-OIDC-IdP" idps0).1.2
    (fun p hp => by
      have : p = happyIDP := by simpa [idps0] using hp
      subst this
      decide)

/-- C26: a run of the callback handler calls the upstream token exchange at most once,
and when it does, the arguments are the request's `code` parameter, the PKCE code and
the nonce of the decoded state, and the redirect URI that the handler was built with;
the provider is one of the OIDC list with the state's UpstreamName. -/
theorem NewHandler_exchange_arguments (pk : Packages T)
    (upstreamIDPs : UpstreamOIDCIdentityProvidersLister T) (oauthHelper : OAuth2Provider T)
    (stateDecoder cookieDecoder : T.Decoder) (redirectURI : String) (r : Request) :
    ((NewHandler pk upstreamIDPs oauthHelper stateDecoder cookieDecoder redirectURI r).calls.count
        Call.ExchangeAuthcodeAndValidateTokens ≤ 1)
      ∧ ∀ idp code pkce nonce uri result,
          Event.ExchangeAuthcodeAndValidateTokens idp code pkce nonce uri result ∈
            (NewHandler pk upstreamIDPs oauthHelper stateDecoder cookieDecoder redirectURI r).trace →
          ∃ st, (validateRequest pk r stateDecoder cookieDecoder).result = .ok st
            ∧ code = r.FormValue "code"
            ∧ pkce = st.PKCECode
            ∧ nonce = st.Nonce
            ∧ uri = redirectURI
            ∧ idp = st.UpstreamName := by
  constructor
  · unfold NewHandler validateRequest
    simp only [Outcome.calls]
    repeat' split
    all_goals simp [Event.call]
  · intro idp code pkce nonce uri result h
    by_cases hm : r.Method = http.MethodGet
    swap
    · simp [NewHandler, validateRequest, hm] at h
    cases hs : pk.ReadStateParamAndValidateCSRFCookie r cookieDecoder stateDecoder with
    | error e => simp [NewHandler, validateRequest, hm, hs] at h
    | ok cs =>
    obtain ⟨csrf, st⟩ := cs
    by_cases hc : authcode r = ""
    · simp [NewHandler, validateRequest, hm, hs, hc] at h
    have hv : (validateRequest pk r stateDecoder cookieDecoder).result = .ok st := by
      simp [validateRequest, hm, hs, hc]
    cases hf : findUpstreamIDPConfig st.UpstreamName upstreamIDPs with
    | none => simp [NewHandler, validateRequest, hm, hs, hc, hf] at h
    | some p =>
    have hname := (findUpstreamIDPConfig_loop_some _ _ _ hf).2
    refine ⟨st, hv, ?_⟩
    simp only [NewHandler, validateRequest, hm, hs, hc, hf] at h
    revert h
    repeat' split
    all_goals simp_all [authcode]

/-- Witness of C26: the happy callback, whose exchange is the fifth call. -/
theorem NewHandler_exchange_arguments_witness :
    ∃ st, (validateRequest pk0 (callback "happy-state" "some-code") () ()).result = .ok st
      ∧ "some-code" = (callback "happy-state" "some-code").FormValue "code"
      ∧ "test-pkce" = st.PKCECode
      ∧ "test-nonce" = st.Nonce
      ∧ redirectURI = redirectURI
      ∧ "some-oidc-idp" = st.UpstreamName :=
  (NewHandler_exchange_arguments pk0 idps0 oauth0 () () redirectURI
    (callback "happy-state" "some-code")).2 "some-oidc-idp" "some-code" "test-pkce" "test-nonce"
    redirectURI (.ok "token-of-some-code") (.tail _ (.tail _ (.tail _ (.tail _ (.head _)))))

/-- C27: for a GET request whose state or CSRF cookie is invalid the handler returns
the validator's error unchanged, whatever the `code` parameter is, and the code check
is not reached; the outcome of the code check, "code param not found", is produced
only for a request whose state and CSRF cookie the validator accepted. -/
theorem validateRequest_state_before_code (pk : Packages T)
    (upstreamIDPs : UpstreamOIDCIdentityProvidersLister T) (oauthHelper : OAuth2Provider T)
    (stateDecoder cookieDecoder : T.Decoder) (redirectURI : String) (r : Request) :
    (∀ err, r.Method = http.MethodGet →
        pk.ReadStateParamAndValidateCSRFCookie r cookieDecoder stateDecoder = .error err →
        (validateRequest pk r stateDecoder cookieDecoder).result = .error err
        ∧ (NewHandler pk upstreamIDPs oauthHelper stateDecoder cookieDecoder redirectURI r).result
            = .error err
        ∧ Event.plog "info" "code param not found" none [] ∉
            (NewHandler pk upstreamIDPs oauthHelper stateDecoder cookieDecoder redirectURI r).trace)
      ∧ (Event.plog "info" "code param not found" none [] ∈
            (NewHandler pk upstreamIDPs oauthHelper stateDecoder cookieDecoder redirectURI r).trace →
          r.Method = http.MethodGet
          ∧ ∃ csrf st,
              pk.ReadStateParamAndValidateCSRFCookie r cookieDecoder stateDecoder = .ok (csrf, st))
      ∧ ((NewHandler pk upstreamIDPs oauthHelper stateDecoder cookieDecoder redirectURI r).result
            = .error (httperr.New http.StatusBadRequest "code param not found") →
          (r.Method = http.MethodGet
            ∧ authcode r = ""
            ∧ ∃ csrf st,
                pk.ReadStateParamAndValidateCSRFCookie r cookieDecoder stateDecoder = .ok (csrf, st))
          ∨ pk.ReadStateParamAndValidateCSRFCookie r cookieDecoder stateDecoder
              = .error (httperr.New http.StatusBadRequest "code param not found")) := by
  refine ⟨?_, ?_, ?_⟩
  · intro err hm hs
    simp [NewHandler, validateRequest, hm, hs]
  · unfold NewHandler validateRequest
    repeat' split
    all_goals simp_all
  · intro h
    by_cases hm : r.Method = http.MethodGet
    swap
    · simp [NewHandler, validateRequest, hm, httperr.New, httperr.Newf, http.StatusBadRequest,
        http.StatusMethodNotAllowed] at h
    cases hs : pk.ReadStateParamAndValidateCSRFCookie r cookieDecoder stateDecoder with
    | error e =>
      right
      simpa [NewHandler, validateRequest, hm, hs] using h
    | ok cs =>
    obtain ⟨csrf, st⟩ := cs
    by_cases hc : authcode r = ""
    · exact .inl ⟨hm, hc, csrf, st, rfl⟩
    exfalso
    simp only [NewHandler, validateRequest, hm, hs, hc] at h
    revert h
    repeat' split
    all_goals simp_all [httperr.New, httperr.Newf, httperr.Wrap, http.StatusBadRequest,
      http.StatusMethodNotAllowed, http.StatusUnprocessableEntity, http.StatusBadGateway,
      http.StatusInternalServerError]

/-- Witness of C27: a GET callback with a CSRF cookie that does not match the state,
and no code. -/
theorem validateRequest_state_before_code_witness :
    (validateRequest pk0 { callback "happy-state" "" with
        Cookies := [("__Host-pinniped-csrf", "wrong-csrf")] } () ()).result
        = .error (.httpErr 403 "CSRF value does not match" none)
      ∧ (NewHandler pk0 idps0 oauth0 () () redirectURI { callback "happy-state" "" with
          Cookies := [("__Host-pinniped-csrf", "wrong-csrf")] }).result
        = .error (.httpErr 403 "CSRF value does not match" none)
      ∧ Event.plog "info" "code param not found" none [] ∉
          (NewHandler pk0 idps0 oauth0 () () redirectURI { callback "happy-state" "" with
            Cookies := [("__Host-pinniped-csrf", "wrong-csrf")] }).trace :=
  (validateRequest_state_before_code pk0 idps0 oauth0 () () redirectURI
    { callback "happy-state" "" with Cookies := [("__Host-pinniped-csrf", "wrong-csrf")] }).1
    (.httpErr 403 "CSRF value does not match" none) rfl rfl

/-- C29: when several providers of the list have the requested name,
`findUpstreamIDPConfig` returns the first of them in list order, and the providers
after it play no part: the result is the same whatever follows the first match. -/
theorem findUpstreamIDPConfig_first_match (upstreamName : String)
    (before after : List (UpstreamOIDCIdentityProviderI T)) (p : UpstreamOIDCIdentityProviderI T)
    (hb : ∀ q ∈ before, q.GetName ≠ upstreamName) (hp : p.GetName = upstreamName) :
    findUpstreamIDPConfig upstreamName ⟨before ++ p :: after⟩ = some p
      ∧ ∀ others, findUpstreamIDPConfig upstreamName ⟨before ++ p :: others⟩
          = findUpstreamIDPConfig upstreamName ⟨before ++ p :: after⟩ := by
  have key : ∀ rest, findUpstreamIDPConfig upstreamName ⟨before ++ p :: rest⟩ = some p := by
    intro rest
    unfold findUpstreamIDPConfig
    induction before with
    | nil => simp [findUpstreamIDPConfig.loop, hp]
    | cons q qs ih =>
      have hq : q.GetName ≠ upstreamName := hb q (List.mem_cons_self _ _)
      have := ih (fun x hx => hb x (List.mem_cons_of_mem _ hx))
      simpa [findUpstreamIDPConfig.loop, hq] using this
  exact ⟨key after, fun others => by rw [key others, key after]⟩

/-- Witness of C29: two providers of the same name, in both orders. -/
theorem findUpstreamIDPConfig_first_match_witness :
    (findUpstreamIDPConfig "some-oidc-idp" ⟨[] ++ happyIDP :: [erroringIDP]⟩ = some happyIDP
        ∧ ∀ others, findUpstreamIDPConfig "some-oidc-idp" ⟨[] ++ happyIDP :: others⟩
            = findUpstreamIDPConfig "some-oidc-idp" ⟨[] ++ happyIDP :: [erroringIDP]⟩)
      ∧ (findUpstreamIDPConfig "some-oidc-idp" ⟨[] ++ erroringIDP :: [happyIDP]⟩
            = some erroringIDP
        ∧ ∀ others, findUpstreamIDPConfig "some-oidc-idp" ⟨[] ++ erroringIDP :: others⟩
            = findUpstreamIDPConfig "some-oidc-idp" ⟨[] ++ erroringIDP :: [happyIDP]⟩) :=
  ⟨findUpstreamIDPConfig_first_match "some-oidc-idp" [] [erroringIDP] happyIDP (by simp) rfl,
   findUpstreamIDPConfig_first_match "some-oidc-idp" [] [happyIDP] erroringIDP (by simp) rfl⟩

end

end Callback

/-! ## Properties of the generated lister -/

namespace Listers

open Listers.Example

/-- C28: `Get` on the namespace lister looks up the indexer key `namespace/name`, and
nothing else of the indexer: it returns no object and the indexer's error when the
indexer errors; no object and the NotFound error of resource "upstreamoidcprovider"
and the requested name when the key does not exist; and otherwise the stored
`*UpstreamOIDCProvider` itself with a nil error. -/
theorem upstreamOIDCProviderNamespaceLister_Get_spec {P : Type}
    (Resource : String → GroupResource) (indexer : Indexer P) (namespace_ name : String) :
    (∀ obj found err, indexer.GetByKey (namespace_ ++ "/" ++ name) = (obj, found, some err) →
        ((NewUpstreamOIDCProviderLister indexer).UpstreamOIDCProviders namespace_).Get Resource name
          = .returned none (some (.indexer err)))
      ∧ (∀ obj, indexer.GetByKey (namespace_ ++ "/" ++ name) = (obj, false, none) →
        ((NewUpstreamOIDCProviderLister indexer).UpstreamOIDCProviders namespace_).Get Resource name
          = .returned none (some (.NewNotFound (Resource "upstreamoidcprovider") name)))
      ∧ (∀ ptr, indexer.GetByKey (namespace_ ++ "/" ++ name)
            = (.upstreamOIDCProvider ptr, true, none) →
        ((NewUpstreamOIDCProviderLister indexer).UpstreamOIDCProviders namespace_).Get Resource name
          = .returned (some ptr) none)
      ∧ (∀ indexer' : Indexer P,
          indexer'.GetByKey (namespace_ ++ "/" ++ name)
            = indexer.GetByKey (namespace_ ++ "/" ++ name) →
          ((NewUpstreamOIDCProviderLister indexer').UpstreamOIDCProviders namespace_).Get Resource name
            = ((NewUpstreamOIDCProviderLister indexer).UpstreamOIDCProviders namespace_).Get
                Resource name) := by
  refine ⟨?_, ?_, ?_, ?_⟩
  · intro obj found err h
    simp [upstreamOIDCProviderNamespaceLister.Get, upstreamOIDCProviderLister.UpstreamOIDCProviders,
      NewUpstreamOIDCProviderLister, h]
  · intro obj h
    simp [upstreamOIDCProviderNamespaceLister.Get, upstreamOIDCProviderLister.UpstreamOIDCProviders,
      NewUpstreamOIDCProviderLister, h]
  · intro ptr h
    simp [upstreamOIDCProviderNamespaceLister.Get, upstreamOIDCProviderLister.UpstreamOIDCProviders,
      NewUpstreamOIDCProviderLister, h]
  · intro indexer' h
    simp [upstreamOIDCProviderNamespaceLister.Get, upstreamOIDCProviderLister.UpstreamOIDCProviders,
      NewUpstreamOIDCProviderLister, h]

/-- Witness of C28: in the namespace `supervisor`, a key that exists, a key that does
not, and a key on which the indexer fails. -/
theorem upstreamOIDCProviderNamespaceLister_Get_spec_witness :
    ((NewUpstreamOIDCProviderLister indexer).UpstreamOIDCProviders "supervisor").Get Resource
          "my-idp"
        = .returned (some "https://my-idp.example.com") none
      ∧ ((NewUpstreamOIDCProviderLister indexer).UpstreamOIDCProviders "supervisor").Get Resource
          "other-idp"
        = .returned none (some (.NewNotFound
            { Group := "idp.supervisor.pinniped.dev", Resource := "upstreamoidcprovider" }
            "other-idp"))
      ∧ ((NewUpstreamOIDCProviderLister indexer).UpstreamOIDCProviders "supervisor").Get Resource
          "broken"
        = .returned none (some (.indexer "index is corrupt")) :=
  ⟨(upstreamOIDCProviderNamespaceLister_Get_spec Resource indexer "supervisor" "my-idp").2.2.1
      "https://my-idp.example.com" rfl,
   (upstreamOIDCProviderNamespaceLister_Get_spec Resource indexer "supervisor" "other-idp").2.1
      .nil rfl,
   (upstreamOIDCProviderNamespaceLister_Get_spec Resource indexer "supervisor" "broken").1
      .nil false "index is corrupt" rfl⟩

end Listers

/-! ## More properties of the session builder -/

namespace downstreamsession

open fosite

/-- The scopes granted after `GrantScopesIfRequested`, and the requested scopes, which
it leaves alone. -/
theorem GrantScopesIfRequested_mem (a : AuthorizeRequester) :
    (∀ s, s ∈ (GrantScopesIfRequested a).GrantedScopes
        ↔ s ∈ a.GrantedScopes
          ∨ (s ∈ a.RequestedScopes
              ∧ (s = "openid" ∨ s = "offline_access" ∨ s = "pinniped:request-audience")))
      ∧ (GrantScopesIfRequested a).RequestedScopes = a.RequestedScopes := by
  have h1 := GrantScopeIfRequested_spec a "openid"
  have h2 := GrantScopeIfRequested_spec (GrantScopeIfRequested a "openid") "offline_access"
  have h3 := GrantScopeIfRequested_spec
    (GrantScopeIfRequested (GrantScopeIfRequested a "openid") "offline_access")
    "pinniped:request-audience"
  constructor
  · intro s
    unfold GrantScopesIfRequested
    rw [h3.1, h2.1, h1.1, h2.2, h1.2]
    tauto
  · unfold GrantScopesIfRequested
    rw [h3.2, h2.2, h1.2]

/-- Granting a scope if requested changes nothing when the scope, if requested, is
already granted. -/
theorem GrantScopeIfRequested_of_granted (b : AuthorizeRequester) (scopeName : String)
    (h : scopeName ∈ b.RequestedScopes → scopeName ∈ b.GrantedScopes) :
    GrantScopeIfRequested b scopeName = b := by
  unfold GrantScopeIfRequested AuthorizeRequester.GrantScope
  by_cases hr : scopeName ∈ b.RequestedScopes
  · simp [hr, h hr]
  · simp [hr]

/-- C22: applying GrantScopesIfRequested twice gives the same requester as applying it
once, so the same requested scopes and the same granted scopes. -/
theorem GrantScopesIfRequested_idempotent (a : AuthorizeRequester) :
    GrantScopesIfRequested (GrantScopesIfRequested a) = GrantScopesIfRequested a
      ∧ (GrantScopesIfRequested (GrantScopesIfRequested a)).RequestedScopes
          = (GrantScopesIfRequested a).RequestedScopes
      ∧ (GrantScopesIfRequested (GrantScopesIfRequested a)).GrantedScopes
          = (GrantScopesIfRequested a).GrantedScopes := by
  have hm := GrantScopesIfRequested_mem a
  have key : GrantScopesIfRequested (GrantScopesIfRequested a) = GrantScopesIfRequested a := by
    generalize hb : GrantScopesIfRequested a = b at hm
    have g : ∀ s, (s = "openid" ∨ s = "offline_access" ∨ s = "pinniped:request-audience") →
        s ∈ b.RequestedScopes → s ∈ b.GrantedScopes := by
      intro s hs hr
      rw [hm.2] at hr
      exact (hm.1 s).2 (.inr ⟨hr, hs⟩)
    unfold GrantScopesIfRequested
    rw [GrantScopeIfRequested_of_granted b "openid" (g _ (.inl rfl)),
      GrantScopeIfRequested_of_granted b "offline_access" (g _ (.inr (.inl rfl))),
      GrantScopeIfRequested_of_granted b "pinniped:request-audience" (g _ (.inr (.inr rfl)))]
  exact ⟨key, by rw [key], by rw [key]⟩

end downstreamsession

/-! ## Properties of the identity projection and of the response writer -/

namespace downstreamsession

/-- C24: whenever the OIDC identity projection yields an identity, its subject is the
upstream issuer (the claim `iss`) followed by "?sub=" followed by the upstream subject
(the claim `sub`); so two tokens with the same issuer and subject project to the same
subject, whatever their username claim, groups claim and other claims are and whatever
claims the provider is configured to read. -/
theorem GetDownstreamIdentityFromUpstreamIDToken_subject
    (idp : provider.UpstreamOIDCIdentityProvider) (claims : Claims)
    (subject username : String) (groups : List String)
    (h : GetDownstreamIdentityFromUpstreamIDToken idp claims = .ok (subject, username, groups)) :
    (∃ issuer sub, claims.lookup "iss" = some (.string issuer)
        ∧ claims.lookup "sub" = some (.string sub)
        ∧ subject = issuer ++ "?sub=" ++ sub)
      ∧ ∀ (idp' : provider.UpstreamOIDCIdentityProvider) (claims' : Claims)
          (subject' username' : String) (groups' : List String),
          claims'.lookup "iss" = claims.lookup "iss" →
          claims'.lookup "sub" = claims.lookup "sub" →
          GetDownstreamIdentityFromUpstreamIDToken idp' claims'
            = .ok (subject', username', groups') →
          subject' = subject := by
  have key : ∀ (i : provider.UpstreamOIDCIdentityProvider) (c : Claims) (s u : String)
      (g : List String), GetDownstreamIdentityFromUpstreamIDToken i c = .ok (s, u, g) →
      ∃ issuer sub, c.lookup "iss" = some (.string issuer)
        ∧ c.lookup "sub" = some (.string sub) ∧ s = issuer ++ "?sub=" ++ sub := by
    intro i c s u g hc
    unfold GetDownstreamIdentityFromUpstreamIDToken at hc
    split at hc
    · rename_i issuer sub hi hs
      refine ⟨issuer, sub, hi, hs, ?_⟩
      split at hc
      · simp at hc
      · split at hc
        · simp at hc
        · simp only [Except.ok.injEq, Prod.mk.injEq] at hc
          exact hc.1.symm
    · simp at hc
  refine ⟨key idp claims subject username groups h, ?_⟩
  intro idp' claims' subject' username' groups' hi hs h'
  obtain ⟨issuer, sub, e1, e2, e3⟩ := key idp claims subject username groups h
  obtain ⟨issuer', sub', e1', e2', e3'⟩ := key idp' claims' subject' username' groups' h'
  rw [hi, e1] at e1'
  rw [hs, e2] at e2'
  simp only [Option.some.injEq, ClaimValue.string.injEq] at e1' e2'
  rw [e3, e3', e1', e2']

/-- Witness of C24: a second token of the same issuer and subject, with different
email, groups and other claims, read by a provider with another claim mapping, projects
to another username and to the same subject. -/
theorem GetDownstreamIdentityFromUpstreamIDToken_subject_witness :
    GetDownstreamIdentityFromUpstreamIDToken Example.otherIdp Example.otherClaims
        = .ok ("https://my-upstream-issuer.com?sub=abc123-some guid", "Joe Q. Public", ["admins"])
      ∧ "https://my-upstream-issuer.com?sub=abc123-some guid"
        = "https://my-upstream-issuer.com" ++ "?sub=" ++ "abc123-some guid" :=
  ⟨rfl,
   (GetDownstreamIdentityFromUpstreamIDToken_subject Example.idp Example.claims
      ("https://my-upstream-issuer.com" ++ "?sub=" ++ "abc123-some guid") "joe@whitehouse.gov"
      ["test-pinniped-group-0", "test-pinniped-group-1"] rfl).2
      Example.otherIdp Example.otherClaims "https://my-upstream-issuer.com?sub=abc123-some guid"
      "Joe Q. Public" ["admins"] rfl rfl rfl⟩

end downstreamsession

namespace ResponseWriter

open fosite psession Login Login.Example ResponseWriter.Example

end ResponseWriter
